import Mathlib

/-
Verification development for the GBCee Game Boy (DMG) emulator core.

Shallow embedding of the C sources into Lean 4:
 * src/src/mmu.c        -> Mmu, mmu_read, mmu_write
 * src/src/timer.c      -> TimerMmu, timer_step
 * src/src/mbc.c        -> MbcState, mbc_init, mbc_write, mbc_read, mbc_read_ram, mbc_write_ram
 * src/src/interrupts.c -> service_interrupts, handle_interrupts
 * src/src/alu.c        -> the ALU helpers (ADD_A .. RES)
 * src/src/cpu.c        -> CPU, cpu_reset, fetch_d8, fetch_d16, execute_opcode,
                           execute_cb_opcode, cpu_step

C machine integers are modelled as Nat with explicit reductions `% 256` /
`% 65536` exactly where the C types wrap (uint8_t / uint16_t assignments and
parameter conversions).  Byte buffers (ROM, VRAM, ...) are modelled as total
functions Nat -> Nat holding byte values; pointwise update models an array
store.  printf logging has no observable effect on machine state and is not
modelled.
-/

namespace GBC

/-- Pointwise update of a byte buffer: models `buf[a] = v`. -/
def upd (f : Nat → Nat) (a v : Nat) : Nat → Nat :=
  fun x => if x = a then v else f x

/-- Value of a C `int8_t` whose two's-complement bit pattern is the low byte of `v`
(the C cast `(int8_t)v`). -/
def toInt8 (v : Nat) : Int :=
  let b := v % 256
  if b < 128 then (b : Int) else (b : Int) - 256

/-- The CPU register file and control flags, from the `struct CPU` in
includes/cpu.h.  The 8-bit fields hold byte values, PC and SP hold 16-bit
values (the C types are uint8_t / uint16_t / bool). -/
structure CPU where
  A : Nat
  F : Nat
  B : Nat
  C : Nat
  D : Nat
  E : Nat
  H : Nat
  L : Nat
  PC : Nat
  SP : Nat
  halted : Bool
  ime : Bool
  ime_enable : Bool
  ime_disable : Bool
  deriving Repr, DecidableEq

/-- FLAG_Z from includes/cpu.h. -/
def FLAG_Z : Nat := 0x80
/-- FLAG_N from includes/cpu.h. -/
def FLAG_N : Nat := 0x40
/-- FLAG_H from includes/cpu.h. -/
def FLAG_H : Nat := 0x20
/-- FLAG_C from includes/cpu.h. -/
def FLAG_C : Nat := 0x10

/-- REG_BC macro from includes/cpu.h: `(cpu.B << 8) | cpu.C`. -/
def regBC (c : CPU) : Nat := (c.B <<< 8) ||| c.C
/-- REG_DE macro from includes/cpu.h. -/
def regDE (c : CPU) : Nat := (c.D <<< 8) ||| c.E
/-- REG_HL macro from includes/cpu.h. -/
def regHL (c : CPU) : Nat := (c.H <<< 8) ||| c.L

/-- SET_REG_BC macro from includes/cpu.h. -/
def setRegBC (c : CPU) (v : Nat) : CPU :=
  { c with B := (v >>> 8) &&& 0xFF, C := v &&& 0xFF }
/-- SET_REG_DE macro from includes/cpu.h. -/
def setRegDE (c : CPU) (v : Nat) : CPU :=
  { c with D := (v >>> 8) &&& 0xFF, E := v &&& 0xFF }
/-- SET_REG_HL macro from includes/cpu.h. -/
def setRegHL (c : CPU) (v : Nat) : CPU :=
  { c with H := (v >>> 8) &&& 0xFF, L := v &&& 0xFF }

/-- cpu_reset from src/src/cpu.c: post-BIOS register values. -/
def cpu_reset : CPU :=
  { A := 0x01, F := 0xB0, B := 0x00, C := 0x13, D := 0x00, E := 0xD8
    H := 0x01, L := 0x4D, SP := 0xFFFE, PC := 0x0100
    halted := false, ime := false, ime_enable := false, ime_disable := false }

/-- The bus state: the file-scope `static mmu_t mmu` defined in src/src/mmu.c
(the struct defined locally in that file; it has no timer fields and no MBC
state).  Byte buffers are total functions; `rom` models the loaded ROM byte
buffer `mmu.rom`. -/
structure Mmu where
  rom : Nat → Nat
  vram : Nat → Nat
  eram : Nat → Nat
  wram : Nat → Nat
  oam : Nat → Nat
  io : Nat → Nat
  hram : Nat → Nat
  interrupt_enable : Nat
  interrupt_flag : Nat

/-- mmu_read from src/src/mmu.c.  The C switch is on `addr & 0xF000`; the
chain below mirrors its case groups in order.  The entry reduction models the
uint16_t parameter. -/
def mmu_read (m : Mmu) (addr : Nat) : Nat :=
  let addr := addr % 65536
  let hi := addr &&& 0xF000
  -- cases 0x0000..0x7000: flat ROM read (the source's TODO notes banking is absent)
  if hi ≤ 0x7000 then m.rom addr
  -- cases 0x8000, 0x9000: VRAM
  else if hi ≤ 0x9000 then m.vram (addr - 0x8000)
  -- cases 0xA000, 0xB000: external RAM, read directly (no MBC delegation in the source)
  else if hi ≤ 0xB000 then m.eram (addr - 0xA000)
  -- cases 0xC000, 0xD000: WRAM
  else if hi ≤ 0xD000 then m.wram (addr - 0xC000)
  -- cases 0xE000, 0xF000
  else if addr ≤ 0xFDFF then m.wram (addr - 0xE000)
  else if 0xFE00 ≤ addr ∧ addr ≤ 0xFE9F then m.oam (addr - 0xFE00)
  else if 0xFEA0 ≤ addr ∧ addr ≤ 0xFEFF then 0xFF
  else if 0xFF00 ≤ addr ∧ addr ≤ 0xFF7F then
    if addr = 0xFF0F then m.interrupt_flag else m.io (addr - 0xFF00)
  else if 0xFF80 ≤ addr ∧ addr ≤ 0xFFFE then m.hram (addr - 0xFF80)
  else if addr = 0xFFFF then m.interrupt_enable
  else 0xFF

/-- mmu_write from src/src/mmu.c.  Writes to 0x0000..0x7FFF fall through to
`return` (the `handle_mbc_write` call is commented out in the source); there
is no special handling for 0xFF04 (the source carries a TODO for the DIV
reset).  Entry reductions model the uint16_t / uint8_t parameters. -/
def mmu_write (m : Mmu) (addr0 value0 : Nat) : Mmu :=
  -- addr0 % 65536 / value0 % 256 are the uint16_t / uint8_t parameter values;
  -- the switch is on `addr & 0xF000`
  if (addr0 % 65536) &&& 0xF000 ≤ 0x7000 then m
  else if (addr0 % 65536) &&& 0xF000 ≤ 0x9000 then
    { m with vram := upd m.vram (addr0 % 65536 - 0x8000) (value0 % 256) }
  else if (addr0 % 65536) &&& 0xF000 ≤ 0xB000 then
    { m with eram := upd m.eram (addr0 % 65536 - 0xA000) (value0 % 256) }
  else if (addr0 % 65536) &&& 0xF000 ≤ 0xD000 then
    { m with wram := upd m.wram (addr0 % 65536 - 0xC000) (value0 % 256) }
  else if addr0 % 65536 ≤ 0xFDFF then
    { m with wram := upd m.wram (addr0 % 65536 - 0xE000) (value0 % 256) }
  else if 0xFE00 ≤ addr0 % 65536 ∧ addr0 % 65536 ≤ 0xFE9F then
    { m with oam := upd m.oam (addr0 % 65536 - 0xFE00) (value0 % 256) }
  else if 0xFEA0 ≤ addr0 % 65536 ∧ addr0 % 65536 ≤ 0xFEFF then m
  else if 0xFF00 ≤ addr0 % 65536 ∧ addr0 % 65536 ≤ 0xFF7F then
    if addr0 % 65536 = 0xFF0F then { m with interrupt_flag := value0 % 256 }
    else { m with io := upd m.io (addr0 % 65536 - 0xFF00) (value0 % 256) }
  else if 0xFF80 ≤ addr0 % 65536 ∧ addr0 % 65536 ≤ 0xFFFE then
    { m with hram := upd m.hram (addr0 % 65536 - 0xFF80) (value0 % 256) }
  else if addr0 % 65536 = 0xFFFF then { m with interrupt_enable := value0 % 256 }
  else m

/-- Modelled from the spec: `mmu_get_if_register` is called from
src/src/interrupts.c but is not defined under src/.  Per spec section 3 the IF
register is the single byte at 0xFF0F held by the bus (`interrupt_flag`). -/
def mmu_get_if_register (m : Mmu) : Nat := m.interrupt_flag

/-- Modelled from the spec: `mmu_get_ie_register` is called from
src/src/interrupts.c but is not defined under src/.  Per spec section 3 the IE
register is the single byte at 0xFFFF held by the bus (`interrupt_enable`). -/
def mmu_get_ie_register (m : Mmu) : Nat := m.interrupt_enable

/-- A concrete zeroed bus state, as left by mmu_init (all buffers cleared,
IE = IF = 0; the ROM buffer is taken as all zero bytes). -/
def mmuZero : Mmu :=
  { rom := fun _ => 0, vram := fun _ => 0, eram := fun _ => 0, wram := fun _ => 0
    oam := fun _ => 0, io := fun _ => 0, hram := fun _ => 0
    interrupt_enable := 0, interrupt_flag := 0 }

/-- The timer-visible bus state: the `mmu_t` declared in includes/mmu.h
restricted to the fields that src/src/timer.c reads or writes
(`internal_timer`, `tima`, `tma`, `tac`, `interrupt_flag`). -/
structure TimerMmu where
  internal_timer : Nat
  tima : Nat
  tma : Nat
  tac : Nat
  interrupt_flag : Nat
  deriving Repr, DecidableEq

/-- The watched-bit selection switch inside timer_step (src/src/timer.c):
`tac & 0x03` selects bit 9 (4096 Hz), 3 (262144 Hz), 5 (65536 Hz) or
7 (16384 Hz). -/
def timerWatchedBit (tac : Nat) : Nat :=
  match tac &&& 0x03 with
  | 0 => 9
  | 1 => 3
  | 2 => 5
  | _ => 7

/-- timer_step from src/src/timer.c.  `cycles` is the (non-negative) T-cycle
count passed by the scheduler; `internal_timer` wraps as uint16_t, `tima` as
uint8_t. -/
def timer_step (cycles : Nat) (m : TimerMmu) : TimerMmu :=
  let old_timer := m.internal_timer
  let m := { m with internal_timer := (m.internal_timer + cycles) % 65536 }
  let timer_enabled := m.tac &&& 0x04 ≠ 0
  if ¬ timer_enabled then m
  else
    let bit_to_check : Nat := timerWatchedBit m.tac
    let was_set := (old_timer >>> bit_to_check) &&& 1 = 1
    let is_set := (m.internal_timer >>> bit_to_check) &&& 1 = 1
    if was_set ∧ ¬ is_set then
      let tima1 := (m.tima + 1) % 256
      if tima1 = 0 then
        { m with tima := m.tma, interrupt_flag := m.interrupt_flag ||| (1 <<< 2) }
      else
        { m with tima := tima1 }
    else m

/-- Number of falling edges of bit `bit` of the 16-bit internal counter while
it advances from `old` by `cycles`, one T-cycle at a time.  This definition
follows the spec's words (section 4.3 step 3: "If multiple cycles were passed
and multiple falling edges occurred, each must increment TIMA; implementers
may loop one cycle at a time ..."); it is the spec-side notion the timer
claim compares the code against. -/
def spec_falling_edges (bit old cycles : Nat) : Nat :=
  (List.range cycles).countP (fun k =>
    (((old + k) % 65536) >>> bit) &&& 1 = 1 ∧ (((old + k + 1) % 65536) >>> bit) &&& 1 = 0)

/-- The cartridge type tag, from the enum in includes/rom.h. -/
inductive MbcType where
  | rom_only
  | mbc1
  | mbc2
  | mbc3
  | mbc5
  | unknown
  deriving Repr, DecidableEq

/-- The file-scope state of src/src/mbc.c: the control registers
(`mbc_type`, `ram_enable`, `mbc1_rom_lo5`, ...) and the cartridge buffers
`rom` / `eram` with their sizes `g_rom_size` / `g_eram_size` (these globals
are used by mbc.c without a declaration under src/). -/
structure MbcState where
  mbc_type : MbcType
  ram_enable : Bool
  mbc1_rom_lo5 : Nat
  mbc1_rom_hi2_or_ram : Nat
  mbc1_mode : Nat
  mbc2_rom_bank : Nat
  mbc3_rom_bank : Nat
  mbc3_ram_bank_or_rtc : Nat
  mbc3_latch : Nat
  mbc5_rom_bank : Nat
  mbc5_ram_bank : Nat
  rom : Nat → Nat
  g_rom_size : Nat
  eram : Nat → Nat
  g_eram_size : Nat

/-- in_rom_bounds from src/src/mbc.c. -/
def in_rom_bounds (s : MbcState) (off : Nat) : Bool :=
  decide (0 < s.g_rom_size) && decide (off < s.g_rom_size)

/-- in_eram_bounds from src/src/mbc.c. -/
def in_eram_bounds (s : MbcState) (off : Nat) : Bool :=
  decide (0 < s.g_eram_size) && decide (off < s.g_eram_size)

/-- mbc_init from src/src/mbc.c: resets the control registers for the given
cartridge type (the buffers persist). -/
def mbc_init (type : MbcType) (s : MbcState) : MbcState :=
  { s with
    mbc_type := type
    ram_enable := false
    mbc1_rom_lo5 := 1
    mbc1_rom_hi2_or_ram := 0
    mbc1_mode := 0
    mbc2_rom_bank := 1
    mbc3_rom_bank := 1
    mbc3_ram_bank_or_rtc := 0
    mbc3_latch := 0
    mbc5_rom_bank := 1
    mbc5_ram_bank := 0 }

/-- mbc1_active_upper_rom_bank from src/src/mbc.c: the MBC1 ROM bank used for
the 0x4000..0x7FFF window; a zero low-5-bits value is coerced to 1. -/
def mbc1_active_upper_rom_bank (s : MbcState) : Nat :=
  let lo5 := s.mbc1_rom_lo5 &&& 0x1F
  let lo5 := if lo5 = 0 then 1 else lo5
  let hi2 := s.mbc1_rom_hi2_or_ram &&& 0x03
  (hi2 <<< 5) ||| lo5

/-- mbc1_active_lower_rom_bank from src/src/mbc.c. -/
def mbc1_active_lower_rom_bank (s : MbcState) : Nat :=
  let hi2 := s.mbc1_rom_hi2_or_ram &&& 0x03
  hi2 <<< 5

/-- The MBC3 upper-window ROM bank exactly as computed inside mbc_read
(src/src/mbc.c, the MBC_TYPE_MBC3 case): `bank = mbc3_rom_bank & 0x7F;
if (bank == 0) bank = 1;`. -/
def mbc3_active_upper_rom_bank (s : MbcState) : Nat :=
  let bank := s.mbc3_rom_bank &&& 0x7F
  if bank = 0 then 1 else bank

/-- mbc_read from src/src/mbc.c: reads from the 0x0000..0x7FFF cartridge
window through the active banking state. -/
def mbc_read (s : MbcState) (addr : Nat) : Nat :=
  let addr := addr % 65536
  match s.mbc_type with
  | .rom_only =>
    let off := addr
    if in_rom_bounds s off then s.rom off else 0xFF
  | .mbc1 =>
    let off :=
      if addr < 0x4000 then
        if s.mbc1_mode = 0 then addr
        else mbc1_active_lower_rom_bank s * 0x4000 + addr
      else
        mbc1_active_upper_rom_bank s * 0x4000 + (addr - 0x4000)
    if in_rom_bounds s off then s.rom off else 0xFF
  | .mbc2 =>
    let bank := if addr < 0x4000 then 0 else s.mbc2_rom_bank &&& 0x0F
    let bank := if bank = 0 then 1 else bank
    let off := bank * 0x4000 + (addr &&& 0x3FFF)
    if in_rom_bounds s off then s.rom off else 0xFF
  | .mbc3 =>
    let off :=
      if addr < 0x4000 then addr
      else mbc3_active_upper_rom_bank s * 0x4000 + (addr - 0x4000)
    if in_rom_bounds s off then s.rom off else 0xFF
  | .mbc5 =>
    let off :=
      if addr < 0x4000 then addr
      else s.mbc5_rom_bank * 0x4000 + (addr - 0x4000)
    if in_rom_bounds s off then s.rom off else 0xFF
  | .unknown =>
    let off := addr
    if in_rom_bounds s off then s.rom off else 0xFF

/-- mbc_write from src/src/mbc.c: control-register writes in 0x0000..0x7FFF. -/
def mbc_write (s : MbcState) (addr value : Nat) : MbcState :=
  let addr := addr % 65536
  let value := value % 256
  match s.mbc_type with
  | .rom_only => s
  | .mbc1 =>
    if addr < 0x2000 then { s with ram_enable := value &&& 0x0F = 0x0A }
    else if addr < 0x4000 then
      let lo5 := value &&& 0x1F
      { s with mbc1_rom_lo5 := if lo5 &&& 0x1F = 0 then 1 else lo5 }
    else if addr < 0x6000 then { s with mbc1_rom_hi2_or_ram := value &&& 0x03 }
    else { s with mbc1_mode := value &&& 0x01 }
  | .mbc2 =>
    if addr < 0x2000 then
      if addr &&& 0x0100 = 0 then { s with ram_enable := value &&& 0x0F = 0x0A } else s
    else if addr < 0x4000 then
      if addr &&& 0x0100 ≠ 0 then
        let b := value &&& 0x0F
        { s with mbc2_rom_bank := if b = 0 then 1 else b }
      else s
    else s
  | .mbc3 =>
    if addr < 0x2000 then { s with ram_enable := value &&& 0x0F = 0x0A }
    else if addr < 0x4000 then
      let b := value &&& 0x7F
      { s with mbc3_rom_bank := if b = 0 then 1 else b }
    else if addr < 0x6000 then { s with mbc3_ram_bank_or_rtc := value }
    else { s with mbc3_latch := value }
  | .mbc5 =>
    if addr < 0x2000 then { s with ram_enable := value &&& 0x0F = 0x0A }
    else if addr < 0x3000 then { s with mbc5_rom_bank := (s.mbc5_rom_bank &&& 0x100) ||| value }
    else if addr < 0x4000 then
      { s with mbc5_rom_bank := (s.mbc5_rom_bank &&& 0x0FF) ||| ((value &&& 0x01) <<< 8) }
    else if addr < 0x6000 then { s with mbc5_ram_bank := value &&& 0x0F }
    else s
  | .unknown => s

/-- mbc_read_ram from src/src/mbc.c: external-RAM reads in 0xA000..0xBFFF
(0xFF when RAM is disabled or the offset is out of bounds). -/
def mbc_read_ram (s : MbcState) (addr : Nat) : Nat :=
  let addr := addr % 65536
  if ¬ s.ram_enable then 0xFF
  else
    match s.mbc_type with
    | .rom_only => 0xFF
    | .mbc1 =>
      let ram_bank := if s.mbc1_mode = 0 then 0 else s.mbc1_rom_hi2_or_ram &&& 0x03
      let off := ram_bank * 0x2000 + (addr - 0xA000)
      if in_eram_bounds s off then s.eram off else 0xFF
    | .mbc2 => 0xFF
    | .mbc3 =>
      let sel := s.mbc3_ram_bank_or_rtc
      if sel ≤ 0x03 then
        let off := sel * 0x2000 + (addr - 0xA000)
        if in_eram_bounds s off then s.eram off else 0xFF
      else 0xFF
    | .mbc5 =>
      let off := (s.mbc5_ram_bank &&& 0x0F) * 0x2000 + (addr - 0xA000)
      if in_eram_bounds s off then s.eram off else 0xFF
    | .unknown => 0xFF

/-- mbc_write_ram from src/src/mbc.c: external-RAM writes in 0xA000..0xBFFF
(silently dropped when RAM is disabled or out of bounds). -/
def mbc_write_ram (s : MbcState) (addr value : Nat) : MbcState :=
  let addr := addr % 65536
  let value := value % 256
  if ¬ s.ram_enable then s
  else
    match s.mbc_type with
    | .rom_only => s
    | .mbc1 =>
      let ram_bank := if s.mbc1_mode = 0 then 0 else s.mbc1_rom_hi2_or_ram &&& 0x03
      let off := ram_bank * 0x2000 + (addr - 0xA000)
      if in_eram_bounds s off then { s with eram := upd s.eram off value } else s
    | .mbc2 => s
    | .mbc3 =>
      let sel := s.mbc3_ram_bank_or_rtc
      if sel ≤ 0x03 then
        let off := sel * 0x2000 + (addr - 0xA000)
        if in_eram_bounds s off then { s with eram := upd s.eram off value } else s
      else s
    | .mbc5 =>
      let off := (s.mbc5_ram_bank &&& 0x0F) * 0x2000 + (addr - 0xA000)
      if in_eram_bounds s off then { s with eram := upd s.eram off value } else s
    | .unknown => s

/-- Apply a sequence of control-register writes (address, value pairs) through
mbc_write, oldest first. -/
def applyWrites (ws : List (Nat × Nat)) (s : MbcState) : MbcState :=
  ws.foldl (fun s w => mbc_write s w.1 w.2) s

/-- Modelled from the spec: `push16` is called from src/src/cpu.c and
src/src/interrupts.c (includes/interrupts.h includes alu.h "for push16") but
its definition is not under src/.  Spec sections 4.4 and 4.5: the push writes
the high byte then the low byte, each write pre-decrementing SP
("push PC (high byte then low byte, each decrementing SP)"); this matches the
inline PUSH sequences in cpu.c (`mmu_write(--cpu.SP, hi); mmu_write(--cpu.SP, lo);`). -/
def push16 (v : Nat) (c : CPU) (m : Mmu) : CPU × Mmu :=
  let sp1 := (c.SP + 65535) % 65536
  let m := mmu_write m sp1 ((v >>> 8) &&& 0xFF)
  let sp2 := (sp1 + 65535) % 65536
  let m := mmu_write m sp2 (v &&& 0xFF)
  ({ c with SP := sp2 }, m)

/-- service_interrupts from src/src/interrupts.c: disables IME, clears the
request bit in IF through the bus, pushes PC, and jumps to the vector.
`if_reg & ~(1 << interrupt_bit)` on the byte-valued IF register is written
with an 8-bit mask. -/
def service_interrupts (interrupt_bit : Nat) (c : CPU) (m : Mmu) : CPU × Mmu :=
  let c := { c with ime := false }
  let if_reg := mmu_get_if_register m
  let m := mmu_write m 0xFF0F (if_reg &&& (0xFF ^^^ (1 <<< interrupt_bit)))
  let r := push16 c.PC c m
  let c := r.1
  let m := r.2
  let c :=
    match interrupt_bit with
    | 0 => { c with PC := 0x0040 }
    | 1 => { c with PC := 0x0048 }
    | 2 => { c with PC := 0x0050 }
    | 3 => { c with PC := 0x0058 }
    | 4 => { c with PC := 0x0060 }
    | _ => c
  (c, m)

/-- handle_interrupts from src/src/interrupts.c.  The priority loop
`for (i = 0; i < 5; i++) if (active & (1 << i)) { service; break; }` is
unrolled. -/
def handle_interrupts (c : CPU) (m : Mmu) : CPU × Mmu :=
  let requested_interrupts := mmu_get_if_register m
  let enabled_interrupts := mmu_get_ie_register m
  let active_interrupts := requested_interrupts &&& enabled_interrupts &&& 0x1F
  let c :=
    if c.halted ∧ requested_interrupts &&& 0x1F ≠ 0 then { c with halted := false } else c
  if ¬ c.ime then (c, m)
  else if active_interrupts &&& 1 ≠ 0 then service_interrupts 0 c m
  else if active_interrupts &&& 2 ≠ 0 then service_interrupts 1 c m
  else if active_interrupts &&& 4 ≠ 0 then service_interrupts 2 c m
  else if active_interrupts &&& 8 ≠ 0 then service_interrupts 3 c m
  else if active_interrupts &&& 16 ≠ 0 then service_interrupts 4 c m
  else (c, m)

/- The ALU helpers of src/src/alu.c.  Each function's uint8_t `val` parameter
is reduced mod 256 at entry (the C call-boundary conversion); flag writes use
8-bit masks for the C `&= ~FLAG` forms. -/

/-- ADD_A from src/src/alu.c. -/
def ADD_A (val : Nat) (c : CPU) : CPU :=
  let val := val % 256
  let result := c.A + val
  let f := 0
  let f := if result &&& 0xFF = 0 then f ||| FLAG_Z else f
  let f := if (c.A &&& 0x0F) + (val &&& 0x0F) > 0x0F then f ||| FLAG_H else f
  let f := if result > 0xFF then f ||| FLAG_C else f
  { c with F := f, A := result &&& 0xFF }

/-- ADC_A from src/src/alu.c. -/
def ADC_A (val : Nat) (c : CPU) : CPU :=
  let val := val % 256
  let carry := if c.F &&& FLAG_C ≠ 0 then 1 else 0
  let result := c.A + val + carry
  let f := 0
  let f := if result &&& 0xFF = 0 then f ||| FLAG_Z else f
  let f := if ((c.A &&& 0x0F) + (val &&& 0x0F) + carry) &&& 0x10 ≠ 0 then f ||| FLAG_H else f
  let f := if result > 0xFF then f ||| FLAG_C else f
  { c with F := f, A := result &&& 0xFF }

/-- SUB_A from src/src/alu.c (Z is computed from A after the wrapping
subtraction, as in the source). -/
def SUB_A (val : Nat) (c : CPU) : CPU :=
  let val := val % 256
  let f := FLAG_N
  let f := if (c.A &&& 0x0F) < (val &&& 0x0F) then f ||| FLAG_H else f
  let f := if c.A < val then f ||| FLAG_C else f
  let a := (c.A + 256 - val) % 256
  let f := if a = 0 then f ||| FLAG_Z else f
  { c with F := f, A := a }

/-- SBC_A from src/src/alu.c (`result` is the uint16_t wrap of A - val - carry). -/
def SBC_A (val : Nat) (c : CPU) : CPU :=
  let val := val % 256
  let carry := if c.F &&& FLAG_C ≠ 0 then 1 else 0
  let result := (c.A + 131072 - val - carry) % 65536
  let f := FLAG_N
  let f := if result &&& 0xFF = 0 then f ||| FLAG_Z else f
  let f := if (c.A &&& 0x0F) < (val &&& 0x0F) + carry then f ||| FLAG_H else f
  let f := if c.A < val + carry then f ||| FLAG_C else f
  { c with F := f, A := result &&& 0xFF }

/-- CP_A from src/src/alu.c. -/
def CP_A (val : Nat) (c : CPU) : CPU :=
  let val := val % 256
  let f := FLAG_N
  let f := if (c.A &&& 0x0F) < (val &&& 0x0F) then f ||| FLAG_H else f
  let f := if c.A < val then f ||| FLAG_C else f
  let result := (c.A + 256 - val) % 256
  let f := if result = 0 then f ||| FLAG_Z else f
  { c with F := f }

/-- ADD_HL from src/src/alu.c.  The first flag statement in the source is
`cpu.F &= ~FLAG_H` under the comment "reset N": the N flag is in fact left
untouched by this function. -/
def ADD_HL (val : Nat) (c : CPU) : CPU :=
  let val := val % 65536
  let hl := regHL c
  let result := hl + val
  let f := c.F &&& (0xFF ^^^ FLAG_H)
  let f :=
    if (hl &&& 0x0FFF) + (val &&& 0x0FFF) > 0x0FFF then f ||| FLAG_H
    else f &&& (0xFF ^^^ FLAG_H)
  let f :=
    if result > 0xFFFF then f ||| FLAG_C
    else f &&& (0xFF ^^^ FLAG_C)
  { c with F := f, H := (result >>> 8) &&& 0xFF, L := result &&& 0xFF }

/-- ADD_SP from src/src/alu.c.  The definition takes an int8_t `val` (the
alu.h prototype declares uint16_t; the definition's type is followed here, so
the argument is reduced to a signed byte at entry).  The flag checks use the
low nibble / low byte of the two's-complement bit pattern. -/
def ADD_SP (val : Nat) (c : CPU) : CPU :=
  let bits := val % 256
  let v := toInt8 val
  let sp := c.SP
  let result := ((sp + v : Int).emod 65536).toNat
  let f := 0
  let f := if (sp &&& 0xF) + (bits &&& 0xF) > 0xF then f ||| FLAG_H else f
  let f := if (sp &&& 0xFF) + (bits &&& 0xFF) > 0xFF then f ||| FLAG_C else f
  { c with F := f, SP := result }

/-- INC_16 from src/src/alu.c (uint16_t wrap). -/
def INC_16 (v : Nat) : Nat := (v + 1) % 65536

/-- DEC_16 from src/src/alu.c (uint16_t wrap). -/
def DEC_16 (v : Nat) : Nat := (v + 65535) % 65536

/-- AND_A from src/src/alu.c. -/
def AND_A (val : Nat) (c : CPU) : CPU :=
  let val := val % 256
  let a := c.A &&& val
  let f := FLAG_H
  let f := if a = 0 then f ||| FLAG_Z else f
  { c with F := f, A := a }

/-- OR_A from src/src/alu.c. -/
def OR_A (val : Nat) (c : CPU) : CPU :=
  let val := val % 256
  let a := (c.A ||| val) &&& 0xFF
  let f := 0
  let f := if a = 0 then f ||| FLAG_Z else f
  { c with F := f, A := a }

/-- XOR_A from src/src/alu.c. -/
def XOR_A (val : Nat) (c : CPU) : CPU :=
  let val := val % 256
  let a := (c.A ^^^ val) &&& 0xFF
  let f := 0
  let f := if a = 0 then f ||| FLAG_Z else f
  { c with F := f, A := a }

/-- SWAP from src/src/alu.c: returns the nibble-swapped byte and updates the
flags in the CPU. -/
def SWAP (val : Nat) (c : CPU) : Nat × CPU :=
  let val := val % 256
  let result := ((val >>> 4) ||| (val <<< 4)) &&& 0xFF
  let f := if result = 0 then FLAG_Z else 0
  (result, { c with F := f })

/-- INC from src/src/alu.c: 8-bit increment; preserves C, returns the new value. -/
def INC (val : Nat) (c : CPU) : Nat × CPU :=
  let val := val % 256
  let result := (val + 1) % 256
  let f := c.F &&& FLAG_C
  let f := if result = 0 then f ||| FLAG_Z else f
  let f := if val &&& 0x0F = 0x0F then f ||| FLAG_H else f
  (result, { c with F := f })

/-- DEC from src/src/alu.c: 8-bit decrement; preserves C, returns the new value. -/
def DEC (val : Nat) (c : CPU) : Nat × CPU :=
  let val := val % 256
  let result := (val + 255) % 256
  let f := (c.F &&& FLAG_C) ||| FLAG_N
  let f := if result = 0 then f ||| FLAG_Z else f
  let f := if val &&& 0x0F = 0 then f ||| FLAG_H else f
  (result, { c with F := f })

/-- DAA from src/src/alu.c (including its `(a & 0xFF) > 9` low-digit test,
translated as written). -/
def DAA (c : CPU) : CPU :=
  let a := c.A
  let r :=
    if c.F &&& FLAG_N = 0 then
      let adjust := if c.F &&& FLAG_H ≠ 0 ∨ a &&& 0xFF > 9 then 0x06 else 0
      let step :=
        if c.F &&& FLAG_C ≠ 0 ∨ a > 0x99 then (adjust ||| 0x60, 1) else (adjust, 0)
      ((a + step.1) % 256, step.2)
    else
      let adjust := if c.F &&& FLAG_H ≠ 0 then 0x06 else 0
      let adjust := if c.F &&& FLAG_C ≠ 0 then adjust ||| 0x60 else adjust
      ((a + 256 - adjust) % 256, 0)
  let a := r.1
  let carry := r.2
  let f := c.F &&& (0xFF ^^^ (FLAG_Z ||| FLAG_H))
  let f := if a = 0 then f ||| FLAG_Z else f
  let f := if carry = 1 ∨ f &&& FLAG_C ≠ 0 then f ||| FLAG_C else f
  { c with F := f, A := a }

/-- CPL from src/src/alu.c: complement A (uint8_t), set N and H. -/
def CPL (c : CPU) : CPU :=
  { c with A := (c.A ^^^ 0xFF) &&& 0xFF, F := c.F ||| (FLAG_N ||| FLAG_H) }

/-- CCF from src/src/alu.c. -/
def CCF (c : CPU) : CPU :=
  let f := c.F &&& (0xFF ^^^ (FLAG_N ||| FLAG_H))
  { c with F := f ^^^ FLAG_C }

/-- SCF from src/src/alu.c. -/
def SCF (c : CPU) : CPU :=
  let f := c.F &&& (0xFF ^^^ (FLAG_N ||| FLAG_H))
  { c with F := f ||| FLAG_C }

/-- RLC from src/src/alu.c: rotate left; returns (result, carry_out). -/
def RLC (value : Nat) : Nat × Bool :=
  let value := value % 256
  let bit7 := value &&& 0x80 ≠ 0
  let result := ((value <<< 1) ||| (if bit7 then 1 else 0)) &&& 0xFF
  (result, bit7)

/-- RL from src/src/alu.c: rotate left through carry; returns (result, carry_out). -/
def RL (value : Nat) (carry_in : Bool) : Nat × Bool :=
  let value := value % 256
  let bit7 := (value >>> 7) &&& 0x01
  let result := ((value <<< 1) ||| (if carry_in then 1 else 0)) &&& 0xFF
  (result, bit7 ≠ 0)

/-- RRC from src/src/alu.c: rotate right; sets flags itself and returns the result. -/
def RRC (value : Nat) (c : CPU) : Nat × CPU :=
  let value := value % 256
  let bit0 := value &&& 0x01
  let result := (value >>> 1) ||| (bit0 <<< 7)
  let f := 0
  let f := if result = 0 then f ||| 0x80 else f
  let f := if bit0 ≠ 0 then f ||| 0x10 else f
  (result, { c with F := f })

/-- RR from src/src/alu.c: rotate right through carry; sets flags itself. -/
def RR (value : Nat) (c : CPU) : Nat × CPU :=
  let value := value % 256
  let carry := if c.F &&& 0x10 ≠ 0 then 1 else 0
  let bit0 := value &&& 0x01
  let result := (value >>> 1) ||| (carry <<< 7)
  let f := 0
  let f := if result = 0 then f ||| 0x80 else f
  let f := if bit0 ≠ 0 then f ||| 0x10 else f
  (result, { c with F := f })

/-- SLA from src/src/alu.c: shift left; sets flags, returns the new value. -/
def SLA (val : Nat) (c : CPU) : Nat × CPU :=
  let old := val % 256
  let result := (old <<< 1) &&& 0xFF
  let f := 0
  let f := if result = 0 then f ||| FLAG_Z else f
  let f := if old &&& 0x80 ≠ 0 then f ||| FLAG_C else f
  (result, { c with F := f })

/-- SRA from src/src/alu.c: arithmetic shift right; sets flags. -/
def SRA (val : Nat) (c : CPU) : Nat × CPU :=
  let old := val % 256
  let msb := old &&& 0x80
  let result := (old >>> 1) ||| msb
  let f := 0
  let f := if result = 0 then f ||| FLAG_Z else f
  let f := if old &&& 0x01 ≠ 0 then f ||| FLAG_C else f
  (result, { c with F := f })

/-- SRL from src/src/alu.c: logical shift right; sets flags. -/
def SRL (val : Nat) (c : CPU) : Nat × CPU :=
  let old := val % 256
  let result := old >>> 1
  let f := 0
  let f := if result = 0 then f ||| FLAG_Z else f
  let f := if old &&& 0x01 ≠ 0 then f ||| FLAG_C else f
  (result, { c with F := f })

/-- BIT from src/src/alu.c: test bit `bit` of `value`; flags only. -/
def BIT (value bit : Nat) (c : CPU) : CPU :=
  let f := ((c.F &&& FLAG_C) ||| FLAG_H) &&& (0xFF ^^^ FLAG_N)
  let f :=
    if value &&& (1 <<< bit) = 0 then f ||| FLAG_Z
    else f &&& (0xFF ^^^ FLAG_Z)
  { c with F := f }

/-- SET from src/src/alu.c: set bit `bit` of the byte `value`. -/
def SET (value bit : Nat) : Nat :=
  (value ||| (1 <<< bit)) &&& 0xFF

/-- RES from src/src/alu.c: clear bit `bit` of the byte `value`
(`*value &= ~(1 << bit)` on a uint8_t). -/
def RES (value bit : Nat) : Nat :=
  value &&& (0xFF ^^^ ((1 <<< bit) &&& 0xFF))

/-- fetch_d8 from src/src/cpu.c: `mmu_read(cpu.PC++)`. -/
def fetch_d8 (c : CPU) (m : Mmu) : Nat × CPU :=
  (mmu_read m c.PC, { c with PC := (c.PC + 1) % 65536 })

/-- fetch_d16 from src/src/cpu.c: little-endian 16-bit immediate fetch. -/
def fetch_d16 (c : CPU) (m : Mmu) : Nat × CPU :=
  let r1 := fetch_d8 c m
  let r2 := fetch_d8 r1.2 m
  ((r2.1 <<< 8) ||| r1.1, r2.2)

/-- The register lookup table `regs[]` of execute_cb_opcode (src/src/cpu.c):
indexes 0..7 map to B, C, D, E, H, L, (HL), A; index 6 is handled by the
callers before the lookup. -/
def getReg8 (c : CPU) (i : Nat) : Nat :=
  match i with
  | 0 => c.B
  | 1 => c.C
  | 2 => c.D
  | 3 => c.E
  | 4 => c.H
  | 5 => c.L
  | _ => c.A

/-- Store through the `regs[]` table of execute_cb_opcode (src/src/cpu.c). -/
def setReg8 (c : CPU) (i v : Nat) : CPU :=
  match i with
  | 0 => { c with B := v }
  | 1 => { c with C := v }
  | 2 => { c with D := v }
  | 3 => { c with E := v }
  | 4 => { c with H := v }
  | 5 => { c with L := v }
  | _ => { c with A := v }

set_option maxHeartbeats 4000000 in
/-- execute_opcode from src/src/cpu.c: decodes and executes one base-table
opcode; returns the C function's bool result (false only for HALT and for an
unrecognized opcode) together with the new CPU and bus state.  The uint8_t
parameter is reduced mod 256 at entry. -/
def execute_opcode (opcode : Nat) (c : CPU) (m : Mmu) : Bool × CPU × Mmu :=
  let opcode := opcode % 256
  match opcode with
  -- NOP
  | 0x00 => (true, c, m)
  -- LD r, n
  | 0x06 => let r := fetch_d8 c m; (true, { r.2 with B := r.1 }, m)
  | 0x0E => let r := fetch_d8 c m; (true, { r.2 with C := r.1 }, m)
  | 0x16 => let r := fetch_d8 c m; (true, { r.2 with D := r.1 }, m)
  | 0x1E => let r := fetch_d8 c m; (true, { r.2 with E := r.1 }, m)
  | 0x26 => let r := fetch_d8 c m; (true, { r.2 with H := r.1 }, m)
  | 0x2E => let r := fetch_d8 c m; (true, { r.2 with L := r.1 }, m)
  -- LD r1, r2 (register A)
  | 0x7F => (true, c, m)
  | 0x78 => (true, { c with A := c.B }, m)
  | 0x79 => (true, { c with A := c.C }, m)
  | 0x7A => (true, { c with A := c.D }, m)
  | 0x7B => (true, { c with A := c.E }, m)
  | 0x7C => (true, { c with A := c.H }, m)
  | 0x7D => (true, { c with A := c.L }, m)
  -- register B
  | 0x40 => (true, c, m)
  | 0x41 => (true, { c with B := c.C }, m)
  | 0x42 => (true, { c with B := c.D }, m)
  | 0x43 => (true, { c with B := c.E }, m)
  | 0x44 => (true, { c with B := c.H }, m)
  | 0x45 => (true, { c with B := c.L }, m)
  -- register C
  | 0x48 => (true, { c with C := c.B }, m)
  | 0x49 => (true, c, m)
  | 0x4A => (true, { c with C := c.D }, m)
  | 0x4B => (true, { c with C := c.E }, m)
  | 0x4C => (true, { c with C := c.H }, m)
  | 0x4D => (true, { c with C := c.L }, m)
  -- register D
  | 0x50 => (true, { c with D := c.B }, m)
  | 0x51 => (true, { c with D := c.C }, m)
  | 0x52 => (true, c, m)
  | 0x53 => (true, { c with D := c.E }, m)
  | 0x54 => (true, { c with D := c.H }, m)
  | 0x55 => (true, { c with D := c.L }, m)
  -- register E
  | 0x58 => (true, { c with E := c.B }, m)
  | 0x59 => (true, { c with E := c.C }, m)
  | 0x5A => (true, { c with E := c.D }, m)
  | 0x5B => (true, c, m)
  | 0x5C => (true, { c with E := c.H }, m)
  | 0x5D => (true, { c with E := c.L }, m)
  -- register H
  | 0x60 => (true, { c with H := c.B }, m)
  | 0x61 => (true, { c with H := c.C }, m)
  | 0x62 => (true, { c with H := c.D }, m)
  | 0x63 => (true, { c with H := c.E }, m)
  | 0x64 => (true, c, m)
  | 0x65 => (true, { c with H := c.L }, m)
  -- register L
  | 0x68 => (true, { c with L := c.B }, m)
  | 0x69 => (true, { c with L := c.C }, m)
  | 0x6A => (true, { c with L := c.D }, m)
  | 0x6B => (true, { c with L := c.E }, m)
  | 0x6C => (true, { c with L := c.H }, m)
  | 0x6D => (true, c, m)
  -- LD (HL), r
  | 0x77 => (true, c, mmu_write m (regHL c) c.A)
  | 0x70 => (true, c, mmu_write m (regHL c) c.B)
  | 0x71 => (true, c, mmu_write m (regHL c) c.C)
  | 0x72 => (true, c, mmu_write m (regHL c) c.D)
  | 0x73 => (true, c, mmu_write m (regHL c) c.E)
  | 0x74 => (true, c, mmu_write m (regHL c) c.H)
  | 0x75 => (true, c, mmu_write m (regHL c) c.L)
  -- LD (HL), n
  | 0x36 => let r := fetch_d8 c m; (true, r.2, mmu_write m (regHL r.2) r.1)
  -- LD A, (BC) / (DE)
  | 0x0A => (true, { c with A := mmu_read m (regBC c) }, m)
  | 0x1A => (true, { c with A := mmu_read m (regDE c) }, m)
  -- LD A, (nn)
  | 0xFA => let r := fetch_d16 c m; (true, { r.2 with A := mmu_read m r.1 }, m)
  -- LD A, #
  | 0x3E => let r := fetch_d8 c m; (true, { r.2 with A := r.1 }, m)
  -- LD n, A
  | 0x47 => (true, { c with B := c.A }, m)
  | 0x4F => (true, { c with C := c.A }, m)
  | 0x57 => (true, { c with D := c.A }, m)
  | 0x5F => (true, { c with E := c.A }, m)
  | 0x67 => (true, { c with H := c.A }, m)
  | 0x6F => (true, { c with L := c.A }, m)
  | 0x02 => (true, c, mmu_write m (regBC c) c.A)
  | 0x12 => (true, c, mmu_write m (regDE c) c.A)
  -- LD (nn), A
  | 0xEA => let r := fetch_d16 c m; (true, r.2, mmu_write m r.1 r.2.A)
  -- LD r, (HL)
  | 0x7E => (true, { c with A := mmu_read m (regHL c) }, m)
  | 0x46 => (true, { c with B := mmu_read m (regHL c) }, m)
  | 0x4E => (true, { c with C := mmu_read m (regHL c) }, m)
  | 0x56 => (true, { c with D := mmu_read m (regHL c) }, m)
  | 0x5E => (true, { c with E := mmu_read m (regHL c) }, m)
  | 0x66 => (true, { c with H := mmu_read m (regHL c) }, m)
  | 0x6E => (true, { c with L := mmu_read m (regHL c) }, m)
  -- LD A, (FF00 + C)
  | 0xF2 => (true, { c with A := mmu_read m (0xFF00 + c.C) }, m)
  -- LD (FF00 + C), A
  | 0xE2 => (true, c, mmu_write m (0xFF00 + c.C) c.A)
  -- LDD A, (HL)
  | 0x3A =>
    let hl := regHL c
    let a := mmu_read m hl
    let hl2 := (hl + 65535) % 65536
    (true, { c with A := a, H := (hl2 >>> 8) &&& 0xFF, L := hl2 &&& 0xFF }, m)
  -- LDD (HL), A
  | 0x32 =>
    let hl := regHL c
    let m := mmu_write m hl c.A
    let hl2 := (hl + 65535) % 65536
    (true, { c with H := (hl2 >>> 8) &&& 0xFF, L := hl2 &&& 0xFF }, m)
  -- LDI A, (HL)
  | 0x2A =>
    let hl := regHL c
    let a := mmu_read m hl
    let hl2 := (hl + 1) % 65536
    (true, { c with A := a, H := (hl2 >>> 8) &&& 0xFF, L := hl2 &&& 0xFF }, m)
  -- LDI (HL), A
  | 0x22 =>
    let hl := regHL c
    let m := mmu_write m hl c.A
    let hl2 := (hl + 1) % 65536
    (true, { c with H := (hl2 >>> 8) &&& 0xFF, L := hl2 &&& 0xFF }, m)
  -- LDH (n), A
  | 0xE0 => let r := fetch_d8 c m; (true, r.2, mmu_write m (0xFF00 + r.1) r.2.A)
  -- LDH A, (n)
  | 0xF0 => let r := fetch_d8 c m; (true, { r.2 with A := mmu_read m (0xFF00 + r.1) }, m)
  -- LD rr, nn
  | 0x01 => let r := fetch_d16 c m; (true, setRegBC r.2 r.1, m)
  | 0x11 => let r := fetch_d16 c m; (true, setRegDE r.2 r.1, m)
  | 0x21 => let r := fetch_d16 c m; (true, setRegHL r.2 r.1, m)
  | 0x31 => let r := fetch_d16 c m; (true, { r.2 with SP := r.1 }, m)
  -- LD SP, HL
  | 0xF9 => (true, { c with SP := regHL c }, m)
  -- LDHL SP, n
  | 0xF8 =>
    let r := fetch_d8 c m
    let c := r.2
    let nbits := r.1 % 256
    let n := toInt8 r.1
    let sp := c.SP
    let result := ((sp + n : Int).emod 65536).toNat
    let c := setRegHL c result
    let f := c.F &&& (0xFF ^^^ (FLAG_Z ||| FLAG_N))
    -- temp = (sp ^ n ^ result) & 0xFFFF on the 16-bit two's-complement pattern of n
    let nb16 := if nbits < 128 then nbits else nbits + 0xFF00
    let temp := (sp ^^^ nb16 ^^^ result) &&& 0xFFFF
    let f := if temp &&& 0x10 ≠ 0 then f ||| FLAG_H else f &&& (0xFF ^^^ FLAG_H)
    let f := if temp &&& 0x100 ≠ 0 then f ||| FLAG_C else f &&& (0xFF ^^^ FLAG_C)
    (true, { c with F := f }, m)
  -- LD (nn), SP
  | 0x08 =>
    let r := fetch_d16 c m
    let c := r.2
    let m := mmu_write m r.1 (c.SP &&& 0xFF)
    let m := mmu_write m (r.1 + 1) ((c.SP >>> 8) &&& 0xFF)
    (true, c, m)
  -- PUSH AF
  | 0xF5 =>
    let sp1 := (c.SP + 65535) % 65536
    let m := mmu_write m sp1 c.A
    let sp2 := (sp1 + 65535) % 65536
    let m := mmu_write m sp2 (c.F &&& 0xF0)
    (true, { c with SP := sp2 }, m)
  -- PUSH BC
  | 0xC5 =>
    let sp1 := (c.SP + 65535) % 65536
    let m := mmu_write m sp1 c.B
    let sp2 := (sp1 + 65535) % 65536
    let m := mmu_write m sp2 c.C
    (true, { c with SP := sp2 }, m)
  -- PUSH DE
  | 0xD5 =>
    let sp1 := (c.SP + 65535) % 65536
    let m := mmu_write m sp1 c.D
    let sp2 := (sp1 + 65535) % 65536
    let m := mmu_write m sp2 c.E
    (true, { c with SP := sp2 }, m)
  -- PUSH HL
  | 0xE5 =>
    let sp1 := (c.SP + 65535) % 65536
    let m := mmu_write m sp1 c.H
    let sp2 := (sp1 + 65535) % 65536
    let m := mmu_write m sp2 c.L
    (true, { c with SP := sp2 }, m)
  -- POP AF (low nibble of F masked off)
  | 0xF1 =>
    let f := mmu_read m c.SP &&& 0xF0
    let sp1 := (c.SP + 1) % 65536
    let a := mmu_read m sp1
    let sp2 := (sp1 + 1) % 65536
    (true, { c with F := f, A := a, SP := sp2 }, m)
  -- POP BC
  | 0xC1 =>
    let lo := mmu_read m c.SP
    let sp1 := (c.SP + 1) % 65536
    let hi := mmu_read m sp1
    let sp2 := (sp1 + 1) % 65536
    (true, { c with C := lo, B := hi, SP := sp2 }, m)
  -- POP DE
  | 0xD1 =>
    let lo := mmu_read m c.SP
    let sp1 := (c.SP + 1) % 65536
    let hi := mmu_read m sp1
    let sp2 := (sp1 + 1) % 65536
    (true, { c with E := lo, D := hi, SP := sp2 }, m)
  -- POP HL
  | 0xE1 =>
    let lo := mmu_read m c.SP
    let sp1 := (c.SP + 1) % 65536
    let hi := mmu_read m sp1
    let sp2 := (sp1 + 1) % 65536
    (true, { c with L := lo, H := hi, SP := sp2 }, m)
  -- ADD A, x
  | 0x87 => (true, ADD_A c.A c, m)
  | 0x80 => (true, ADD_A c.B c, m)
  | 0x81 => (true, ADD_A c.C c, m)
  | 0x82 => (true, ADD_A c.D c, m)
  | 0x83 => (true, ADD_A c.E c, m)
  | 0x84 => (true, ADD_A c.H c, m)
  | 0x85 => (true, ADD_A c.L c, m)
  | 0x86 => (true, ADD_A (mmu_read m (regHL c)) c, m)
  | 0xC6 => let r := fetch_d8 c m; (true, ADD_A r.1 r.2, m)
  -- ADC A, x
  | 0x8F => (true, ADC_A c.A c, m)
  | 0x88 => (true, ADC_A c.B c, m)
  | 0x89 => (true, ADC_A c.C c, m)
  | 0x8A => (true, ADC_A c.D c, m)
  | 0x8B => (true, ADC_A c.E c, m)
  | 0x8C => (true, ADC_A c.H c, m)
  | 0x8D => (true, ADC_A c.L c, m)
  | 0x8E => (true, ADC_A (mmu_read m (regHL c)) c, m)
  | 0xCE => let r := fetch_d8 c m; (true, ADC_A r.1 r.2, m)
  -- SUB A, x
  | 0x97 => (true, SUB_A c.A c, m)
  | 0x90 => (true, SUB_A c.B c, m)
  | 0x91 => (true, SUB_A c.C c, m)
  | 0x92 => (true, SUB_A c.D c, m)
  | 0x93 => (true, SUB_A c.E c, m)
  | 0x94 => (true, SUB_A c.H c, m)
  | 0x95 => (true, SUB_A c.L c, m)
  | 0x96 => (true, SUB_A (mmu_read m (regHL c)) c, m)
  | 0xD6 => let r := fetch_d8 c m; (true, SUB_A r.1 r.2, m)
  -- SBC A, x
  | 0x9F => (true, SBC_A c.A c, m)
  | 0x98 => (true, SBC_A c.B c, m)
  | 0x99 => (true, SBC_A c.C c, m)
  | 0x9A => (true, SBC_A c.D c, m)
  | 0x9B => (true, SBC_A c.E c, m)
  | 0x9C => (true, SBC_A c.H c, m)
  | 0x9D => (true, SBC_A c.L c, m)
  | 0x9E => (true, SBC_A (mmu_read m (regHL c)) c, m)
  | 0xDE => let r := fetch_d8 c m; (true, SBC_A r.1 r.2, m)
  -- AND x
  | 0xA7 => (true, AND_A c.A c, m)
  | 0xA0 => (true, AND_A c.B c, m)
  | 0xA1 => (true, AND_A c.C c, m)
  | 0xA2 => (true, AND_A c.D c, m)
  | 0xA3 => (true, AND_A c.E c, m)
  | 0xA4 => (true, AND_A c.H c, m)
  | 0xA5 => (true, AND_A c.L c, m)
  | 0xA6 => (true, AND_A (mmu_read m (regHL c)) c, m)
  | 0xE6 => let r := fetch_d8 c m; (true, AND_A r.1 r.2, m)
  -- OR x
  | 0xB7 => (true, OR_A c.A c, m)
  | 0xB0 => (true, OR_A c.B c, m)
  | 0xB1 => (true, OR_A c.C c, m)
  | 0xB2 => (true, OR_A c.D c, m)
  | 0xB3 => (true, OR_A c.E c, m)
  | 0xB4 => (true, OR_A c.H c, m)
  | 0xB5 => (true, OR_A c.L c, m)
  | 0xB6 => (true, OR_A (mmu_read m (regHL c)) c, m)
  | 0xF6 => let r := fetch_d8 c m; (true, OR_A r.1 r.2, m)
  -- XOR x
  | 0xAF => (true, XOR_A c.A c, m)
  | 0xA8 => (true, XOR_A c.B c, m)
  | 0xA9 => (true, XOR_A c.C c, m)
  | 0xAA => (true, XOR_A c.D c, m)
  | 0xAB => (true, XOR_A c.E c, m)
  | 0xAC => (true, XOR_A c.H c, m)
  | 0xAD => (true, XOR_A c.L c, m)
  | 0xAE => (true, XOR_A (mmu_read m (regHL c)) c, m)
  | 0xEE => let r := fetch_d8 c m; (true, XOR_A r.1 r.2, m)
  -- CP x
  | 0xBF => (true, CP_A c.A c, m)
  | 0xB8 => (true, CP_A c.B c, m)
  | 0xB9 => (true, CP_A c.C c, m)
  | 0xBA => (true, CP_A c.D c, m)
  | 0xBB => (true, CP_A c.E c, m)
  | 0xBC => (true, CP_A c.H c, m)
  | 0xBD => (true, CP_A c.L c, m)
  | 0xBE => (true, CP_A (mmu_read m (regHL c)) c, m)
  | 0xFE => let r := fetch_d8 c m; (true, CP_A r.1 r.2, m)
  -- INC r
  | 0x3C => let r := INC c.A c; (true, { r.2 with A := r.1 }, m)
  | 0x04 => let r := INC c.B c; (true, { r.2 with B := r.1 }, m)
  | 0x0C => let r := INC c.C c; (true, { r.2 with C := r.1 }, m)
  | 0x14 => let r := INC c.D c; (true, { r.2 with D := r.1 }, m)
  | 0x1C => let r := INC c.E c; (true, { r.2 with E := r.1 }, m)
  | 0x24 => let r := INC c.H c; (true, { r.2 with H := r.1 }, m)
  | 0x2C => let r := INC c.L c; (true, { r.2 with L := r.1 }, m)
  -- INC (HL)
  | 0x34 =>
    let val := mmu_read m (regHL c)
    let r := INC val c
    (true, r.2, mmu_write m (regHL c) r.1)
  -- DEC r
  | 0x3D => let r := DEC c.A c; (true, { r.2 with A := r.1 }, m)
  | 0x05 => let r := DEC c.B c; (true, { r.2 with B := r.1 }, m)
  | 0x0D => let r := DEC c.C c; (true, { r.2 with C := r.1 }, m)
  | 0x15 => let r := DEC c.D c; (true, { r.2 with D := r.1 }, m)
  | 0x1D => let r := DEC c.E c; (true, { r.2 with E := r.1 }, m)
  | 0x25 => let r := DEC c.H c; (true, { r.2 with H := r.1 }, m)
  | 0x2D => let r := DEC c.L c; (true, { r.2 with L := r.1 }, m)
  -- DEC (HL)
  | 0x35 =>
    let val := mmu_read m (regHL c)
    let r := DEC val c
    (true, r.2, mmu_write m (regHL c) r.1)
  -- ADD HL, rr
  | 0x09 => (true, ADD_HL (regBC c) c, m)
  | 0x19 => (true, ADD_HL (regDE c) c, m)
  | 0x29 => (true, ADD_HL (regHL c) c, m)
  | 0x39 => (true, ADD_HL c.SP c, m)
  -- ADD SP, # (the source passes cpu.SP, not a fetched immediate)
  | 0xE8 => (true, ADD_SP c.SP c, m)
  -- INC rr
  | 0x03 => (true, setRegBC c (INC_16 (regBC c)), m)
  | 0x13 => (true, setRegDE c (INC_16 (regDE c)), m)
  | 0x23 => (true, setRegHL c (INC_16 (regHL c)), m)
  | 0x33 => (true, { c with SP := INC_16 c.SP }, m)
  -- DEC rr
  | 0x0B => (true, setRegBC c (DEC_16 (regBC c)), m)
  | 0x1B => (true, setRegDE c (DEC_16 (regDE c)), m)
  | 0x2B => (true, setRegHL c (DEC_16 (regHL c)), m)
  | 0x3B => (true, { c with SP := DEC_16 c.SP }, m)
  -- DAA, CPL, CCF, SCF
  | 0x27 => (true, DAA c, m)
  | 0x2F => (true, CPL c, m)
  | 0x3F => (true, CCF c, m)
  | 0x37 => (true, SCF c, m)
  -- DI / EI: latch the pending flags
  | 0xF3 => (true, { c with ime_disable := true }, m)
  | 0xFB => (true, { c with ime_enable := true }, m)
  -- RLCA
  | 0x07 =>
    let bit7 := (c.A >>> 7) &&& 0x01
    let a := ((c.A <<< 1) ||| bit7) &&& 0xFF
    let f := if bit7 ≠ 0 then FLAG_C else 0
    (true, { c with A := a, F := f }, m)
  -- RLA
  | 0x17 =>
    let carry := if c.F &&& FLAG_C ≠ 0 then 1 else 0
    let bit7 := (c.A >>> 7) &&& 0x01
    let a := ((c.A <<< 1) ||| carry) &&& 0xFF
    let f := if bit7 ≠ 0 then FLAG_C else 0
    (true, { c with A := a, F := f }, m)
  -- RRCA
  | 0x0F =>
    let bit0 := c.A &&& 0x01
    let a := ((c.A &&& 0xFF) >>> 1) ||| (bit0 <<< 7)
    let f := if bit0 ≠ 0 then FLAG_C else 0
    (true, { c with A := a, F := f }, m)
  -- RRA
  | 0x1F =>
    let carry := if c.F &&& FLAG_C ≠ 0 then 1 else 0
    let bit0 := c.A &&& 0x01
    let a := ((c.A &&& 0xFF) >>> 1) ||| (carry <<< 7)
    let f := if bit0 ≠ 0 then FLAG_C else 0
    (true, { c with A := a, F := f }, m)
  -- JP nn
  | 0xC3 => let r := fetch_d16 c m; (true, { r.2 with PC := r.1 }, m)
  -- JP cc, nn
  | 0xC2 =>
    let r := fetch_d16 c m
    (true, if r.2.F &&& FLAG_Z = 0 then { r.2 with PC := r.1 } else r.2, m)
  | 0xCA =>
    let r := fetch_d16 c m
    (true, if r.2.F &&& FLAG_Z ≠ 0 then { r.2 with PC := r.1 } else r.2, m)
  | 0xD2 =>
    let r := fetch_d16 c m
    (true, if r.2.F &&& FLAG_C = 0 then { r.2 with PC := r.1 } else r.2, m)
  | 0xDA =>
    let r := fetch_d16 c m
    (true, if r.2.F &&& FLAG_C ≠ 0 then { r.2 with PC := r.1 } else r.2, m)
  -- JP HL
  | 0xE9 => (true, { c with PC := regHL c }, m)
  -- JR n
  | 0x18 =>
    let r := fetch_d8 c m
    let offset := toInt8 r.1
    (true, { r.2 with PC := ((r.2.PC + offset : Int).emod 65536).toNat }, m)
  -- JR cc, n
  | 0x20 =>
    let r := fetch_d8 c m
    let offset := toInt8 r.1
    (true,
      if r.2.F &&& FLAG_Z = 0 then { r.2 with PC := ((r.2.PC + offset : Int).emod 65536).toNat }
      else r.2, m)
  | 0x28 =>
    let r := fetch_d8 c m
    let offset := toInt8 r.1
    (true,
      if r.2.F &&& FLAG_Z ≠ 0 then { r.2 with PC := ((r.2.PC + offset : Int).emod 65536).toNat }
      else r.2, m)
  | 0x30 =>
    let r := fetch_d8 c m
    let offset := toInt8 r.1
    (true,
      if r.2.F &&& FLAG_C = 0 then { r.2 with PC := ((r.2.PC + offset : Int).emod 65536).toNat }
      else r.2, m)
  | 0x38 =>
    let r := fetch_d8 c m
    let offset := toInt8 r.1
    (true,
      if r.2.F &&& FLAG_C ≠ 0 then { r.2 with PC := ((r.2.PC + offset : Int).emod 65536).toNat }
      else r.2, m)
  -- CALL nn
  | 0xCD =>
    let r := fetch_d16 c m
    let p := push16 r.2.PC r.2 m
    (true, { p.1 with PC := r.1 }, p.2)
  -- CALL cc, nn
  | 0xC4 =>
    let r := fetch_d16 c m
    if r.2.F &&& FLAG_Z = 0 then
      let p := push16 r.2.PC r.2 m
      (true, { p.1 with PC := r.1 }, p.2)
    else (true, r.2, m)
  | 0xCC =>
    let r := fetch_d16 c m
    if r.2.F &&& FLAG_Z ≠ 0 then
      let p := push16 r.2.PC r.2 m
      (true, { p.1 with PC := r.1 }, p.2)
    else (true, r.2, m)
  | 0xD4 =>
    let r := fetch_d16 c m
    if r.2.F &&& FLAG_C = 0 then
      let p := push16 r.2.PC r.2 m
      (true, { p.1 with PC := r.1 }, p.2)
    else (true, r.2, m)
  | 0xDC =>
    let r := fetch_d16 c m
    if r.2.F &&& FLAG_C ≠ 0 then
      let p := push16 r.2.PC r.2 m
      (true, { p.1 with PC := r.1 }, p.2)
    else (true, r.2, m)
  -- RST n
  | 0xC7 => let p := push16 c.PC c m; (true, { p.1 with PC := 0x00 }, p.2)
  | 0xCF => let p := push16 c.PC c m; (true, { p.1 with PC := 0x08 }, p.2)
  | 0xD7 => let p := push16 c.PC c m; (true, { p.1 with PC := 0x10 }, p.2)
  | 0xDF => let p := push16 c.PC c m; (true, { p.1 with PC := 0x18 }, p.2)
  | 0xE7 => let p := push16 c.PC c m; (true, { p.1 with PC := 0x20 }, p.2)
  | 0xEF => let p := push16 c.PC c m; (true, { p.1 with PC := 0x28 }, p.2)
  | 0xF7 => let p := push16 c.PC c m; (true, { p.1 with PC := 0x30 }, p.2)
  | 0xFF => let p := push16 c.PC c m; (true, { p.1 with PC := 0x38 }, p.2)
  -- RET
  | 0xC9 =>
    let lo := mmu_read m c.SP
    let hi := mmu_read m (c.SP + 1)
    (true, { c with SP := (c.SP + 2) % 65536, PC := (hi <<< 8) ||| lo }, m)
  -- RET cc
  | 0xC0 =>
    if c.F &&& FLAG_Z = 0 then
      let lo := mmu_read m c.SP
      let hi := mmu_read m (c.SP + 1)
      (true, { c with SP := (c.SP + 2) % 65536, PC := (hi <<< 8) ||| lo }, m)
    else (true, c, m)
  | 0xC8 =>
    if c.F &&& FLAG_Z ≠ 0 then
      let lo := mmu_read m c.SP
      let hi := mmu_read m (c.SP + 1)
      (true, { c with SP := (c.SP + 2) % 65536, PC := (hi <<< 8) ||| lo }, m)
    else (true, c, m)
  | 0xD0 =>
    if c.F &&& FLAG_C = 0 then
      let lo := mmu_read m c.SP
      let hi := mmu_read m (c.SP + 1)
      (true, { c with SP := (c.SP + 2) % 65536, PC := (hi <<< 8) ||| lo }, m)
    else (true, c, m)
  | 0xD8 =>
    if c.F &&& FLAG_C ≠ 0 then
      let lo := mmu_read m c.SP
      let hi := mmu_read m (c.SP + 1)
      (true, { c with SP := (c.SP + 2) % 65536, PC := (hi <<< 8) ||| lo }, m)
    else (true, c, m)
  -- RETI (IME is enabled immediately)
  | 0xD9 =>
    let lo := mmu_read m c.SP
    let hi := mmu_read m (c.SP + 1)
    (true, { c with SP := (c.SP + 2) % 65536, PC := (hi <<< 8) ||| lo, ime := true }, m)
  -- HALT: returns false
  | 0x76 => (false, { c with halted := true }, m)
  -- STOP: consumes the following byte, halts, returns true (break)
  | 0x10 =>
    let r := fetch_d8 c m
    (true, { r.2 with halted := true }, m)
  -- unimplemented opcode: rewind PC, halt, return false
  | _ => (false, { c with PC := (c.PC + 65535) % 65536, halted := true }, m)

set_option maxHeartbeats 4000000 in
/-- execute_cb_opcode from src/src/cpu.c: the CB-prefixed table.  The GCC case
ranges 0x40...0x7F (BIT), 0x80...0xBF (RES) and 0xC0...0xFF (SET) appear as
range tests in the final arm; all other opcodes have literal cases.  In the
source the two (HL) cases 0x0E and 0x1E end in `return 16`, which the bool
return type converts to true.  The uint8_t parameter is reduced mod 256 at
entry. -/
def execute_cb_opcode (opcode : Nat) (c : CPU) (m : Mmu) : Bool × CPU × Mmu :=
  let opcode := opcode % 256
  match opcode with
  -- SWAP n
  | 0x37 => let r := SWAP c.A c; (true, { r.2 with A := r.1 }, m)
  | 0x30 => let r := SWAP c.B c; (true, { r.2 with B := r.1 }, m)
  | 0x31 => let r := SWAP c.C c; (true, { r.2 with C := r.1 }, m)
  | 0x32 => let r := SWAP c.D c; (true, { r.2 with D := r.1 }, m)
  | 0x33 => let r := SWAP c.E c; (true, { r.2 with E := r.1 }, m)
  | 0x34 => let r := SWAP c.H c; (true, { r.2 with H := r.1 }, m)
  | 0x35 => let r := SWAP c.L c; (true, { r.2 with L := r.1 }, m)
  | 0x36 =>
    let val := mmu_read m (regHL c)
    let r := SWAP val c
    (true, r.2, mmu_write m (regHL c) r.1)
  -- RLC A: the source does not set Z here
  | 0x07 =>
    let r := RLC c.A
    let f := if r.2 then FLAG_C else 0
    (true, { c with A := r.1, F := f }, m)
  | 0x00 =>
    let r := RLC c.B
    let f := if r.1 = 0 then FLAG_Z else 0
    let f := if r.2 then f ||| FLAG_C else f
    (true, { c with B := r.1, F := f }, m)
  | 0x01 =>
    let r := RLC c.C
    let f := if r.1 = 0 then FLAG_Z else 0
    let f := if r.2 then f ||| FLAG_C else f
    (true, { c with C := r.1, F := f }, m)
  | 0x02 =>
    let r := RLC c.D
    let f := if r.1 = 0 then FLAG_Z else 0
    let f := if r.2 then f ||| FLAG_C else f
    (true, { c with D := r.1, F := f }, m)
  | 0x03 =>
    let r := RLC c.E
    let f := if r.1 = 0 then FLAG_Z else 0
    let f := if r.2 then f ||| FLAG_C else f
    (true, { c with E := r.1, F := f }, m)
  | 0x04 =>
    let r := RLC c.H
    let f := if r.1 = 0 then FLAG_Z else 0
    let f := if r.2 then f ||| FLAG_C else f
    (true, { c with H := r.1, F := f }, m)
  | 0x05 =>
    let r := RLC c.L
    let f := if r.1 = 0 then FLAG_Z else 0
    let f := if r.2 then f ||| FLAG_C else f
    (true, { c with L := r.1, F := f }, m)
  | 0x06 =>
    let val := mmu_read m (regHL c)
    let r := RLC val
    let m := mmu_write m (regHL c) r.1
    let f := if r.1 = 0 then FLAG_Z else 0
    let f := if r.2 then f ||| FLAG_C else f
    (true, { c with F := f }, m)
  -- RL n
  | 0x10 =>
    let r := RL c.B (c.F &&& FLAG_C ≠ 0)
    let f := if r.1 = 0 then FLAG_Z else 0
    let f := if r.2 then f ||| FLAG_C else f
    (true, { c with B := r.1, F := f }, m)
  | 0x11 =>
    let r := RL c.C (c.F &&& FLAG_C ≠ 0)
    let f := if r.1 = 0 then FLAG_Z else 0
    let f := if r.2 then f ||| FLAG_C else f
    (true, { c with C := r.1, F := f }, m)
  | 0x12 =>
    let r := RL c.D (c.F &&& FLAG_C ≠ 0)
    let f := if r.1 = 0 then FLAG_Z else 0
    let f := if r.2 then f ||| FLAG_C else f
    (true, { c with D := r.1, F := f }, m)
  | 0x13 =>
    let r := RL c.E (c.F &&& FLAG_C ≠ 0)
    let f := if r.1 = 0 then FLAG_Z else 0
    let f := if r.2 then f ||| FLAG_C else f
    (true, { c with E := r.1, F := f }, m)
  | 0x14 =>
    let r := RL c.H (c.F &&& FLAG_C ≠ 0)
    let f := if r.1 = 0 then FLAG_Z else 0
    let f := if r.2 then f ||| FLAG_C else f
    (true, { c with H := r.1, F := f }, m)
  | 0x15 =>
    let r := RL c.L (c.F &&& FLAG_C ≠ 0)
    let f := if r.1 = 0 then FLAG_Z else 0
    let f := if r.2 then f ||| FLAG_C else f
    (true, { c with L := r.1, F := f }, m)
  | 0x16 =>
    let val := mmu_read m (regHL c)
    let r := RL val (c.F &&& FLAG_C ≠ 0)
    let m := mmu_write m (regHL c) r.1
    let f := if r.1 = 0 then FLAG_Z else 0
    let f := if r.2 then f ||| FLAG_C else f
    (true, { c with F := f }, m)
  -- RL A: Z is not set
  | 0x17 =>
    let r := RL c.A (c.F &&& FLAG_C ≠ 0)
    let f := if r.2 then FLAG_C else 0
    (true, { c with A := r.1, F := f }, m)
  -- RRC n (flags set inside RRC)
  | 0x08 => let r := RRC c.B c; (true, { r.2 with B := r.1 }, m)
  | 0x09 => let r := RRC c.C c; (true, { r.2 with C := r.1 }, m)
  | 0x0A => let r := RRC c.D c; (true, { r.2 with D := r.1 }, m)
  | 0x0B => let r := RRC c.E c; (true, { r.2 with E := r.1 }, m)
  | 0x0C => let r := RRC c.H c; (true, { r.2 with H := r.1 }, m)
  | 0x0D => let r := RRC c.L c; (true, { r.2 with L := r.1 }, m)
  | 0x0E =>
    let val := mmu_read m (regHL c)
    let r := RRC val c
    (true, r.2, mmu_write m (regHL c) r.1)
  | 0x0F => let r := RRC c.A c; (true, { r.2 with A := r.1 }, m)
  -- RR n (flags set inside RR)
  | 0x18 => let r := RR c.B c; (true, { r.2 with B := r.1 }, m)
  | 0x19 => let r := RR c.C c; (true, { r.2 with C := r.1 }, m)
  | 0x1A => let r := RR c.D c; (true, { r.2 with D := r.1 }, m)
  | 0x1B => let r := RR c.E c; (true, { r.2 with E := r.1 }, m)
  | 0x1C => let r := RR c.H c; (true, { r.2 with H := r.1 }, m)
  | 0x1D => let r := RR c.L c; (true, { r.2 with L := r.1 }, m)
  | 0x1E =>
    let val := mmu_read m (regHL c)
    let r := RR val c
    (true, r.2, mmu_write m (regHL c) r.1)
  | 0x1F => let r := RR c.A c; (true, { r.2 with A := r.1 }, m)
  -- SLA n
  | 0x20 => let r := SLA c.B c; (true, { r.2 with B := r.1 }, m)
  | 0x21 => let r := SLA c.C c; (true, { r.2 with C := r.1 }, m)
  | 0x22 => let r := SLA c.D c; (true, { r.2 with D := r.1 }, m)
  | 0x23 => let r := SLA c.E c; (true, { r.2 with E := r.1 }, m)
  | 0x24 => let r := SLA c.H c; (true, { r.2 with H := r.1 }, m)
  | 0x25 => let r := SLA c.L c; (true, { r.2 with L := r.1 }, m)
  | 0x26 =>
    let val := mmu_read m (regHL c)
    let r := SLA val c
    (true, r.2, mmu_write m (regHL c) r.1)
  | 0x27 => let r := SLA c.A c; (true, { r.2 with A := r.1 }, m)
  -- SRA n
  | 0x28 => let r := SRA c.B c; (true, { r.2 with B := r.1 }, m)
  | 0x29 => let r := SRA c.C c; (true, { r.2 with C := r.1 }, m)
  | 0x2A => let r := SRA c.D c; (true, { r.2 with D := r.1 }, m)
  | 0x2B => let r := SRA c.E c; (true, { r.2 with E := r.1 }, m)
  | 0x2C => let r := SRA c.H c; (true, { r.2 with H := r.1 }, m)
  | 0x2D => let r := SRA c.L c; (true, { r.2 with L := r.1 }, m)
  | 0x2E =>
    let val := mmu_read m (regHL c)
    let r := SRA val c
    (true, r.2, mmu_write m (regHL c) r.1)
  | 0x2F => let r := SRA c.A c; (true, { r.2 with A := r.1 }, m)
  -- SRL n
  | 0x38 => let r := SRL c.B c; (true, { r.2 with B := r.1 }, m)
  | 0x39 => let r := SRL c.C c; (true, { r.2 with C := r.1 }, m)
  | 0x3A => let r := SRL c.D c; (true, { r.2 with D := r.1 }, m)
  | 0x3B => let r := SRL c.E c; (true, { r.2 with E := r.1 }, m)
  | 0x3C => let r := SRL c.H c; (true, { r.2 with H := r.1 }, m)
  | 0x3D => let r := SRL c.L c; (true, { r.2 with L := r.1 }, m)
  | 0x3E =>
    let val := mmu_read m (regHL c)
    let r := SRL val c
    (true, r.2, mmu_write m (regHL c) r.1)
  | 0x3F => let r := SRL c.A c; (true, { r.2 with A := r.1 }, m)
  | op =>
    -- BIT b, r : case 0x40 ... 0x7F
    if 0x40 ≤ op ∧ op ≤ 0x7F then
      let bit := (op >>> 3) &&& 0x07
      let index := op &&& 0x07
      if index = 6 then
        let val := mmu_read m (regHL c)
        (true, BIT val bit c, m)
      else
        (true, BIT (getReg8 c index) bit c, m)
    -- RES b, r : case 0x80 ... 0xBF
    else if 0x80 ≤ op ∧ op ≤ 0xBF then
      let bit := (op >>> 3) &&& 0x07
      let index := op &&& 0x07
      if index = 6 then
        let val := mmu_read m (regHL c)
        (true, c, mmu_write m (regHL c) (RES val bit))
      else
        (true, setReg8 c index (RES (getReg8 c index) bit), m)
    -- SET b, r : case 0xC0 ... 0xFF
    else if 0xC0 ≤ op ∧ op ≤ 0xFF then
      let bit := (op >>> 3) &&& 0x07
      let index := op &&& 0x07
      if index = 6 then
        let val := mmu_read m (regHL c)
        (true, c, mmu_write m (regHL c) (SET val bit))
      else
        (true, setReg8 c index (SET (getReg8 c index) bit), m)
    -- unimplemented CB opcode
    else
      (false, { c with halted := true }, m)

/-- cpu_step from src/src/cpu.c.  Returns the C function's int result together
with the new state: 4 on the PC==0xFFFF guard and on a halted CPU; otherwise
the bool returned by execute_opcode / execute_cb_opcode converted to an int
(1 or 0).  The delayed IME commit runs after execute_opcode on the non-CB
path only (the CB path returns early in the source). -/
def cpu_step (c : CPU) (m : Mmu) : Nat × CPU × Mmu :=
  if c.PC = 0xFFFF then (4, { c with halted := true }, m)
  else if c.halted then (4, c, m)
  else
    let opcode := mmu_read m c.PC
    let c1 := { c with PC := (c.PC + 1) % 65536 }
    if opcode = 0xCB then
      let cb := mmu_read m c1.PC
      let c2 := { c1 with PC := (c1.PC + 1) % 65536 }
      let r := execute_cb_opcode cb c2 m
      (if r.1 then 1 else 0, r.2)
    else
      let r := execute_opcode opcode c1 m
      -- apply delayed IME effects AFTER the instruction
      let c3 := if r.2.1.ime_enable then { r.2.1 with ime := true, ime_enable := false } else r.2.1
      let c4 := if c3.ime_disable then { c3 with ime := false, ime_disable := false } else c3
      (if r.1 then 1 else 0, c4, r.2.2)

/- Concrete states used by the theorems below. -/

/-- Bus state with a single EI (0xFB) opcode at the reset entry point 0x0100. -/
def mmuEI : Mmu :=
  { mmuZero with rom := fun a => if a = 0x0100 then 0xFB else 0 }

/-- A halted CPU at the reset register values. -/
def cpuHalted : CPU := { cpu_reset with halted := true }

/-- Bus state in which V-Blank is requested (IF = 0x01) but no interrupt is
enabled (IE = 0x00). -/
def mmuIFonly : Mmu := { mmuZero with interrupt_flag := 1 }

/-- CPU state for the ADD HL,BC evaluation: N flag set (F = 0x40),
HL = 0x0FFF, BC = 0x0001. -/
def cpuAddHl : CPU :=
  { A := 0x01, F := 0x40, B := 0x00, C := 0x01, D := 0x00, E := 0x00
    H := 0x0F, L := 0xFF, PC := 0x0101, SP := 0xFFFE
    halted := false, ime := false, ime_enable := false, ime_disable := false }

/-- An MBC state with empty buffers (no cartridge RAM, zero-sized ROM). -/
def mbcZero : MbcState :=
  { mbc_type := .rom_only, ram_enable := false
    mbc1_rom_lo5 := 1, mbc1_rom_hi2_or_ram := 0, mbc1_mode := 0
    mbc2_rom_bank := 1
    mbc3_rom_bank := 1, mbc3_ram_bank_or_rtc := 0, mbc3_latch := 0
    mbc5_rom_bank := 1, mbc5_ram_bank := 0
    rom := fun _ => 0, g_rom_size := 0, eram := fun _ => 0, g_eram_size := 0 }

/-- Timer state for the witness of the amended timer claim: watched bit 3
about to fall, TIMA at 0xFF, TMA = 0xAA. -/
def timerW : TimerMmu := ⟨15, 0xFF, 0xAA, 0x05, 0⟩

/- Helper lemmas (shared; not claim theorems). -/

/-- A bus write to an address other than 0xFF0F leaves the IF register field
unchanged. -/
theorem mmu_write_interrupt_flag_of_ne (m : Mmu) (a v : Nat)
    (h : a % 65536 ≠ 0xFF0F) :
    (mmu_write m a v).interrupt_flag = m.interrupt_flag := by
  unfold mmu_write
  simp only [apply_ite (fun mm : Mmu => mm.interrupt_flag), if_neg h, ite_self]

/-- A bus write to an address other than 0xFFFF leaves the IE register field
unchanged. -/
theorem mmu_write_interrupt_enable_of_ne (m : Mmu) (a v : Nat)
    (h : a % 65536 ≠ 0xFFFF) :
    (mmu_write m a v).interrupt_enable = m.interrupt_enable := by
  unfold mmu_write
  simp only [apply_ite (fun mm : Mmu => mm.interrupt_enable), if_neg h, ite_self]

/-- A bus write of a byte-sized value to 0xFF0F stores it in the IF field. -/
theorem mmu_write_FF0F_interrupt_flag (m : Mmu) (v : Nat) (hv : v < 256) :
    (mmu_write m 0xFF0F v).interrupt_flag = v := by
  have h : (mmu_write m 0xFF0F v).interrupt_flag = v % 256 := rfl
  rw [h, Nat.mod_eq_of_lt hv]

/-- A natural-number or is nonzero when its right operand is. -/
theorem lor_ne_zero_right (a b : Nat) (hb : b ≠ 0) : a ||| b ≠ 0 := by
  intro h
  apply hb
  apply Nat.eq_of_testBit_eq
  intro i
  have h2 := congrArg (fun x => x.testBit i) h
  simp only [Nat.testBit_lor, Nat.zero_testBit, Bool.or_eq_false_iff] at h2
  simp [h2.2]

/-- The MBC1 upper-window bank computation never yields 0 (any state). -/
theorem mbc1_upper_ne_zero (s : MbcState) : mbc1_active_upper_rom_bank s ≠ 0 := by
  unfold mbc1_active_upper_rom_bank
  dsimp only
  by_cases h : s.mbc1_rom_lo5 &&& 0x1F = 0
  · rw [if_pos h]
    exact lor_ne_zero_right _ _ one_ne_zero
  · rw [if_neg h]
    exact lor_ne_zero_right _ _ h

/-- The MBC3 upper-window bank computation never yields 0 (any state). -/
theorem mbc3_upper_ne_zero (s : MbcState) : mbc3_active_upper_rom_bank s ≠ 0 := by
  unfold mbc3_active_upper_rom_bank
  dsimp only
  split
  · exact one_ne_zero
  · assumption

/- Claim theorems. -/

/-- C2: the claim states that after EI completes, ime stays false throughout
exactly one more instruction and becomes true only after that instruction
completes.  In the code the pending enable latched by EI (0xFB) is committed
by the same cpu_step that executed EI, so with EI at the reset entry point the
CPU already has ime = true (and the latch consumed) before the next
instruction is fetched.  This evaluates the code at that failing input. -/
theorem ei_commits_immediately :
    (cpu_step cpu_reset mmuEI).2.1.ime = true ∧
    (cpu_step cpu_reset mmuEI).2.1.ime_enable = false ∧
    (cpu_step cpu_reset mmuEI).2.1.PC = 0x0101 :=
  ⟨rfl, rfl, rfl⟩

/-- C3: the claim states a halted CPU is woken iff pending = IF & IE & 0x1F is
nonzero, and in particular stays halted when IF has a bit set whose IE bit is
clear.  In the code the wake test uses IF & 0x1F alone: with IF = 0x01 and
IE = 0x00 (pending = 0) handle_interrupts still clears halted.  This evaluates
the code at that failing input. -/
theorem halt_wake_ignores_ie :
    (handle_interrupts cpuHalted mmuIFonly).1.halted = false ∧
    mmu_get_if_register mmuIFonly &&& mmu_get_ie_register mmuIFonly &&& 0x1F = 0 ∧
    cpuHalted.halted = true :=
  ⟨rfl, rfl, rfl⟩

/-- C4 counterexample: with TAC = 0x05 (timer enabled, watched bit 3),
internal counter 8 and a single call advancing by 32 cycles, the watched bit
falls twice during the advance (spec_falling_edges = 2), yet timer_step leaves
TIMA unchanged at 0 — the code only compares the watched bit before and after
the whole advance.  The claim, which demands one TIMA increment per falling
edge, is therefore false on the code. -/
theorem timer_single_edge_counterexample :
    spec_falling_edges 3 8 32 = 2 ∧
    timer_step 32 ⟨8, 0, 0, 0x05, 0⟩ = ⟨40, 0, 0, 0x05, 0⟩ :=
  ⟨by decide, rfl⟩

/-- C4 (amended): with TAC bit 2 set, timer_step advances the internal counter
by cycles (mod 2^16) and increments TIMA at most once per call: exactly when
the watched bit of the counter was set before the advance and clear after it;
that single increment, when it overflows TIMA to 0, reloads TIMA from TMA and
sets bit 2 of IF.  Falling edges that are not visible in the before/after
comparison are not counted. -/
theorem timer_step_at_most_one_edge (m : TimerMmu) (cycles : Nat)
    (henabled : m.tac &&& 0x04 ≠ 0) :
    (timer_step cycles m).internal_timer = (m.internal_timer + cycles) % 65536 ∧
    (timer_step cycles m).tima =
      (if (m.internal_timer >>> timerWatchedBit m.tac) &&& 1 = 1 ∧
          (((m.internal_timer + cycles) % 65536) >>> timerWatchedBit m.tac) &&& 1 ≠ 1 then
        (if (m.tima + 1) % 256 = 0 then m.tma else (m.tima + 1) % 256)
      else m.tima) ∧
    (timer_step cycles m).interrupt_flag =
      (if ((m.internal_timer >>> timerWatchedBit m.tac) &&& 1 = 1 ∧
          (((m.internal_timer + cycles) % 65536) >>> timerWatchedBit m.tac) &&& 1 ≠ 1) ∧
          (m.tima + 1) % 256 = 0 then
        m.interrupt_flag ||| 4
      else m.interrupt_flag) ∧
    (timer_step cycles m).tma = m.tma ∧
    (timer_step cycles m).tac = m.tac := by
  unfold timer_step timerWatchedBit
  simp only [henabled, not_true_eq_false, ite_false, not_false_eq_true, ite_true]
  split_ifs <;> simp_all

/-- Witness for the amended timer claim: watched bit 3 falls (15 -> 16),
TIMA overflows 0xFF -> 0 and is reloaded from TMA = 0xAA with IF bit 2 set. -/
theorem timer_step_at_most_one_edge_witness :
    timerW.tac &&& 0x04 ≠ 0 ∧
    ((timer_step 1 timerW).internal_timer = (timerW.internal_timer + 1) % 65536 ∧
      (timer_step 1 timerW).tima =
        (if (timerW.internal_timer >>> timerWatchedBit timerW.tac) &&& 1 = 1 ∧
            (((timerW.internal_timer + 1) % 65536) >>> timerWatchedBit timerW.tac) &&& 1 ≠ 1 then
          (if (timerW.tima + 1) % 256 = 0 then timerW.tma else (timerW.tima + 1) % 256)
        else timerW.tima) ∧
      (timer_step 1 timerW).interrupt_flag =
        (if ((timerW.internal_timer >>> timerWatchedBit timerW.tac) &&& 1 = 1 ∧
            (((timerW.internal_timer + 1) % 65536) >>> timerWatchedBit timerW.tac) &&& 1 ≠ 1) ∧
            (timerW.tima + 1) % 256 = 0 then
          timerW.interrupt_flag ||| 4
        else timerW.interrupt_flag) ∧
      (timer_step 1 timerW).tma = timerW.tma ∧
      (timer_step 1 timerW).tac = timerW.tac) :=
  ⟨by decide, timer_step_at_most_one_edge timerW 1 (by decide)⟩

/-- C5: the claim states a bus write to 0xFF04 resets the timer's internal
counter (discarding the value) and a bus read of 0xFF04 returns the counter's
high byte.  In the code (mmu.c) 0xFF04 has no special handling — the written
byte is stored in io[0x04] and read back (the write site carries a TODO naming
the missing DIV reset), and the bus state holds no internal counter at all.
This evaluates the code at the failing input v = 0xAB: the read returns 0xAB,
not the high byte 0x00 of a counter that was reset to 0. -/
theorem div_write_stored_not_reset :
    mmu_read (mmu_write mmuZero 0xFF04 0xAB) 0xFF04 = 0xAB ∧
    (mmu_write mmuZero 0xFF04 0xAB).io 0x04 = 0xAB :=
  ⟨rfl, rfl⟩

/-- C6: the claim states the bus delegates 0xA000..0xBFFF to the MBC so that
with RAM disabled or absent a read returns 0xFF and a write changes nothing.
In the code (mmu.c) the bus accesses its eram array directly (both sites carry
TODOs naming the missing MBC delegation/enable check): writing 0xCD to 0xA000
mutates state and reading it back yields 0xCD, while mbc_read_ram itself — to
which the bus never delegates — would have returned 0xFF for the disabled
cartridge.  This evaluates the code at that failing input. -/
theorem eram_bus_bypasses_mbc :
    mmu_read (mmu_write mmuZero 0xA000 0xCD) 0xA000 = 0xCD ∧
    mbc_read_ram (mbc_init .mbc1 mbcZero) 0xA000 = 0xFF :=
  ⟨rfl, rfl⟩

/-- C7: the claim states ADD HL,rr sets N to 0 (with H from bit 11, C from bit
15, Z preserved, HL the wrapped sum).  In the code the ADD_HL line commented
"reset N" executes `cpu.F &= ~FLAG_H`, so N is preserved, not cleared:
executing ADD HL,BC (0x09) with F = 0x40 (N set), HL = 0x0FFF, BC = 0x0001
yields F = 0x60 (N still set, H correctly set) where the claim requires
F = 0x20; HL correctly becomes 0x1000.  This evaluates the code at that
failing input. -/
theorem add_hl_preserves_n_flag :
    (execute_opcode 0x09 cpuAddHl mmuZero).2.1.F = 0x60 ∧
    (execute_opcode 0x09 cpuAddHl mmuZero).2.1.H = 0x10 ∧
    (execute_opcode 0x09 cpuAddHl mmuZero).2.1.L = 0x00 ∧
    (execute_opcode 0x09 cpuAddHl mmuZero).1 = true :=
  ⟨rfl, rfl, rfl, rfl⟩

/-- C9: for MBC1 and MBC3, after any sequence of control-register writes from
the initialized state, the effective ROM bank used for upper-window
(0x4000..0x7FFF) reads is never 0: a bank whose low bits were written as 0 is
treated as 1 (enforced both at write time and in the read-path helpers). -/
theorem mbc_upper_rom_bank_never_zero (ws : List (Nat × Nat)) (s : MbcState) :
    mbc1_active_upper_rom_bank (applyWrites ws (mbc_init .mbc1 s)) ≠ 0 ∧
    mbc3_active_upper_rom_bank (applyWrites ws (mbc_init .mbc3 s)) ≠ 0 :=
  ⟨mbc1_upper_ne_zero _, mbc3_upper_ne_zero _⟩

/-- C10: for every state with halted = false and PC = 0xFFFF, cpu_step takes
the out-of-bounds guard: it performs no fetch and no memory access (the bus
state is returned unchanged and no register is read), sets halted, leaves PC
and all registers unchanged, and returns 4. -/
theorem cpu_step_pc_ffff_guard (c : CPU) (m : Mmu)
    (hh : c.halted = false) (hpc : c.PC = 0xFFFF) :
    cpu_step c m = (4, { c with halted := true }, m) := by
  unfold cpu_step
  rw [if_pos hpc]

/-- Witness for the PC = 0xFFFF guard at a concrete state. -/
theorem cpu_step_pc_ffff_guard_witness :
    ({ cpu_reset with PC := 0xFFFF } : CPU).halted = false ∧
    ({ cpu_reset with PC := 0xFFFF } : CPU).PC = 0xFFFF ∧
    cpu_step { cpu_reset with PC := 0xFFFF } mmuZero
      = (4, { { cpu_reset with PC := 0xFFFF } with halted := true }, mmuZero) :=
  ⟨rfl, rfl, cpu_step_pc_ffff_guard { cpu_reset with PC := 0xFFFF } mmuZero rfl rfl⟩


/-- C1: the claim states cpu_step returns the executed opcode's T-cycle count,
one of 4/8/12/16/20/24, with taken conditional branches strictly dearer than
untaken ones.  In the code cpu_step returns the bool success of
execute_opcode / execute_cb_opcode converted to an int, so for every
non-halted state whose PC is not 0xFFFF the return value is 0 or 1 — never a
T-cycle count, and identical for taken and untaken branches. -/
theorem cpu_step_returns_bool_not_cycles (c : CPU) (m : Mmu)
    (hpc : c.PC ≠ 0xFFFF) (hh : c.halted = false) :
    (cpu_step c m).1 = 0 ∨ (cpu_step c m).1 = 1 := by
  unfold cpu_step
  rw [if_neg hpc, if_neg (by rw [hh]; exact Bool.false_ne_true)]
  dsimp only
  split
  · split
    · right; rfl
    · left; rfl
  · split
    · right; rfl
    · left; rfl

/-- Witness for C1 at the reset state with a NOP (0x00) at PC = 0x0100: the
step of a recognized one-byte instruction returns 1. -/
theorem cpu_step_returns_bool_not_cycles_witness :
    cpu_reset.PC ≠ 0xFFFF ∧ cpu_reset.halted = false ∧
      ((cpu_step cpu_reset mmuZero).1 = 0 ∨ (cpu_step cpu_reset mmuZero).1 = 1) :=
  ⟨by decide, rfl,
    cpu_step_returns_bool_not_cycles cpu_reset mmuZero (by decide) rfl⟩

/-- CPU state for the C8 witness: interrupts enabled, PC = 0x1234, SP = 0xFFFE. -/
def cpu8w : CPU := { cpu_reset with ime := true, PC := 0x1234 }

/-- Bus state for the C8 witness: IF = IE = 0x02 (LCD STAT requested and enabled). -/
def mmu8w : Mmu := { mmuZero with interrupt_flag := 2, interrupt_enable := 2 }

/-- Components of service_interrupts at a concrete interrupt bit: IME cleared,
PC at the vector, SP decremented twice, IF bit cleared with the rest of IF and
IE untouched (when the pushed bytes do not land on 0xFF0F / 0xFFFF), and the
bus state equal to the IF-clear write followed by the two push writes. -/
theorem service_interrupts_components (bit : Nat) (c : CPU) (m : Mmu)
    (hb : bit < 5)
    (hsp1 : (c.SP + 65535) % 65536 ≠ 0xFF0F)
    (hsp1e : (c.SP + 65535) % 65536 ≠ 0xFFFF)
    (hsp2 : ((c.SP + 65535) % 65536 + 65535) % 65536 ≠ 0xFF0F)
    (hsp2e : ((c.SP + 65535) % 65536 + 65535) % 65536 ≠ 0xFFFF) :
    (service_interrupts bit c m).1.ime = false ∧
    (service_interrupts bit c m).1.PC = 0x40 + 8 * bit ∧
    (service_interrupts bit c m).1.SP = ((c.SP + 65535) % 65536 + 65535) % 65536 ∧
    (service_interrupts bit c m).2.interrupt_flag
      = mmu_get_if_register m &&& (0xFF ^^^ (1 <<< bit)) ∧
    (service_interrupts bit c m).2.interrupt_enable = m.interrupt_enable ∧
    (service_interrupts bit c m).2 =
      mmu_write
        (mmu_write (mmu_write m 0xFF0F (mmu_get_if_register m &&& (0xFF ^^^ (1 <<< bit))))
          ((c.SP + 65535) % 65536) ((c.PC >>> 8) &&& 0xFF))
        (((c.SP + 65535) % 65536 + 65535) % 65536) (c.PC &&& 0xFF) := by
  have hm1 : ((c.SP + 65535) % 65536) % 65536 = (c.SP + 65535) % 65536 :=
    Nat.mod_eq_of_lt (Nat.mod_lt _ (by norm_num))
  have hm2 : (((c.SP + 65535) % 65536 + 65535) % 65536) % 65536
      = ((c.SP + 65535) % 65536 + 65535) % 65536 :=
    Nat.mod_eq_of_lt (Nat.mod_lt _ (by norm_num))
  interval_cases bit <;>
  · unfold service_interrupts push16
    dsimp only
    refine ⟨rfl, by norm_num, rfl, ?_, ?_, rfl⟩
    · rw [mmu_write_interrupt_flag_of_ne _ _ _ (by rw [hm2]; exact hsp2),
          mmu_write_interrupt_flag_of_ne _ _ _ (by rw [hm1]; exact hsp1),
          mmu_write_FF0F_interrupt_flag _ _
            (lt_of_le_of_lt Nat.and_le_right (by decide))]
    · rw [mmu_write_interrupt_enable_of_ne _ _ _ (by rw [hm2]; exact hsp2e),
          mmu_write_interrupt_enable_of_ne _ _ _ (by rw [hm1]; exact hsp1e),
          mmu_write_interrupt_enable_of_ne _ _ _ (by norm_num)]


/-- C8: for every state with ime true and pending = IF & IE & 0x1F nonzero,
handle_interrupts services exactly the lowest-numbered set bit i of pending
(priority V-Blank, STAT, Timer, Serial, Joypad): it sets ime to false, clears
bit i of IF leaving the other IF bits and IE unchanged (under the side
condition that the two pushed stack bytes do not land on the IF/IE
addresses), pushes the current PC high byte then low byte with SP decremented
for each byte, and sets PC to 0x40 + 8*i.  push16 and the IF/IE getters are
modelled from the spec (their definitions are not under src/). -/
theorem handle_interrupts_services_lowest_pending (c : CPU) (m : Mmu) (i : Nat)
    (hime : c.ime = true)
    (hi : i < 5)
    (hbit : (mmu_get_if_register m &&& mmu_get_ie_register m &&& 0x1F) &&& (1 <<< i) ≠ 0)
    (hlow : ∀ j, j < i →
      (mmu_get_if_register m &&& mmu_get_ie_register m &&& 0x1F) &&& (1 <<< j) = 0)
    (hsp1 : (c.SP + 65535) % 65536 ≠ 0xFF0F)
    (hsp1e : (c.SP + 65535) % 65536 ≠ 0xFFFF)
    (hsp2 : ((c.SP + 65535) % 65536 + 65535) % 65536 ≠ 0xFF0F)
    (hsp2e : ((c.SP + 65535) % 65536 + 65535) % 65536 ≠ 0xFFFF) :
    (handle_interrupts c m).1.ime = false ∧
    (handle_interrupts c m).1.PC = 0x40 + 8 * i ∧
    (handle_interrupts c m).1.SP = ((c.SP + 65535) % 65536 + 65535) % 65536 ∧
    (handle_interrupts c m).2.interrupt_flag
      = mmu_get_if_register m &&& (0xFF ^^^ (1 <<< i)) ∧
    (handle_interrupts c m).2.interrupt_enable = m.interrupt_enable ∧
    (handle_interrupts c m).2 =
      mmu_write
        (mmu_write (mmu_write m 0xFF0F (mmu_get_if_register m &&& (0xFF ^^^ (1 <<< i))))
          ((c.SP + 65535) % 65536) ((c.PC >>> 8) &&& 0xFF))
        (((c.SP + 65535) % 65536 + 65535) % 65536) (c.PC &&& 0xFF) := by
  set cw := if c.halted ∧ mmu_get_if_register m &&& 0x1F ≠ 0
      then { c with halted := false } else c with hcwdef
  have hSP : cw.SP = c.SP := by rw [hcwdef]; split <;> rfl
  have hPC : cw.PC = c.PC := by rw [hcwdef]; split <;> rfl
  have hIME : cw.ime = true := by rw [hcwdef]; split <;> exact hime
  have hstep : handle_interrupts c m = service_interrupts i cw m := by
    unfold handle_interrupts
    dsimp only
    rw [← hcwdef]
    rw [if_neg (by rw [hIME]; exact fun hx => hx rfl)]
    have hact0 : ∀ j, j < i →
        ∀ v, v = 1 <<< j →
        (mmu_get_if_register m &&& mmu_get_ie_register m &&& 0x1F) &&& v = 0 := by
      intro j hj v hv
      rw [hv]
      exact hlow j hj
    interval_cases i
    · exact if_pos hbit
    · rw [if_neg (not_not_intro (hact0 0 (by norm_num) 1 (by decide)))]
      exact if_pos hbit
    · rw [if_neg (not_not_intro (hact0 0 (by norm_num) 1 (by decide))),
          if_neg (not_not_intro (hact0 1 (by norm_num) 2 (by decide)))]
      exact if_pos hbit
    · rw [if_neg (not_not_intro (hact0 0 (by norm_num) 1 (by decide))),
          if_neg (not_not_intro (hact0 1 (by norm_num) 2 (by decide))),
          if_neg (not_not_intro (hact0 2 (by norm_num) 4 (by decide)))]
      exact if_pos hbit
    · rw [if_neg (not_not_intro (hact0 0 (by norm_num) 1 (by decide))),
          if_neg (not_not_intro (hact0 1 (by norm_num) 2 (by decide))),
          if_neg (not_not_intro (hact0 2 (by norm_num) 4 (by decide))),
          if_neg (not_not_intro (hact0 3 (by norm_num) 8 (by decide)))]
      exact if_pos hbit
  rw [hstep]
  have hsvc := service_interrupts_components i cw m hi
    (by rw [hSP]; exact hsp1) (by rw [hSP]; exact hsp1e)
    (by rw [hSP]; exact hsp2) (by rw [hSP]; exact hsp2e)
  rw [hSP, hPC] at hsvc
  exact hsvc


/-- Witness for C8 at a concrete state: ime on, IF = IE = 0x02 (STAT), so the
lowest pending bit is 1 and the vector is 0x48; SP = 0xFFFE keeps the pushes
inside HRAM. -/
theorem handle_interrupts_services_lowest_pending_witness :
    (cpu8w.ime = true) ∧ (1 < 5) ∧
    ((mmu_get_if_register mmu8w &&& mmu_get_ie_register mmu8w &&& 0x1F) &&& (1 <<< 1) ≠ 0) ∧
    (∀ j, j < 1 →
      (mmu_get_if_register mmu8w &&& mmu_get_ie_register mmu8w &&& 0x1F) &&& (1 <<< j) = 0) ∧
    ((cpu8w.SP + 65535) % 65536 ≠ 0xFF0F) ∧
    ((cpu8w.SP + 65535) % 65536 ≠ 0xFFFF) ∧
    (((cpu8w.SP + 65535) % 65536 + 65535) % 65536 ≠ 0xFF0F) ∧
    (((cpu8w.SP + 65535) % 65536 + 65535) % 65536 ≠ 0xFFFF) ∧
    ((handle_interrupts cpu8w mmu8w).1.ime = false ∧
      (handle_interrupts cpu8w mmu8w).1.PC = 0x40 + 8 * 1 ∧
      (handle_interrupts cpu8w mmu8w).1.SP
        = ((cpu8w.SP + 65535) % 65536 + 65535) % 65536 ∧
      (handle_interrupts cpu8w mmu8w).2.interrupt_flag
        = mmu_get_if_register mmu8w &&& (0xFF ^^^ (1 <<< 1)) ∧
      (handle_interrupts cpu8w mmu8w).2.interrupt_enable = mmu8w.interrupt_enable ∧
      (handle_interrupts cpu8w mmu8w).2 =
        mmu_write
          (mmu_write
            (mmu_write mmu8w 0xFF0F
              (mmu_get_if_register mmu8w &&& (0xFF ^^^ (1 <<< 1))))
            ((cpu8w.SP + 65535) % 65536) ((cpu8w.PC >>> 8) &&& 0xFF))
          (((cpu8w.SP + 65535) % 65536 + 65535) % 65536) (cpu8w.PC &&& 0xFF)) :=
  ⟨rfl, by decide, by decide, by decide, by decide, by decide, by decide, by decide,
    handle_interrupts_services_lowest_pending cpu8w mmu8w 1 rfl (by decide) (by decide)
      (by decide) (by decide) (by decide) (by decide) (by decide)⟩

end GBC
